import Mathlib

/-!
Verification development for the STM32F411_DMLS audio DSP core.

The C sources under `Audio/`, `DSP/` and `Filter/` are shallowly embedded here.
Audio samples, gains and filter coefficients (C `float`) are modelled as exact
rationals `ℚ`; per-channel global arrays become explicit state records passed in
and returned; fallible calls return a status value next to the new state.
Transcendental helpers (`sinf`, `cosf`, `powf`, ...) that only feed coefficient
values are kept as explicit function parameters where a claim does not depend on
their value.
-/

namespace DMLS

/-- C macro `CLAMP(x, min, max)` = `MIN(MAX(x, min), max)` as used in
`audio_driver.c` and `compressor_proc.c`. -/
def CLAMP (x lo hi : ℚ) : ℚ := min (max x lo) hi

/-- `AUDIO_OUTPUT_CHANNELS` (audio_config.h line 35). -/
def AUDIO_OUTPUT_CHANNELS : ℕ := 4

/-- `AUDIO_INPUT_CHANNELS` (audio_config.h line 34). -/
def AUDIO_INPUT_CHANNELS : ℕ := 2

/-! ## Biquad (Filter/Src/biquad.c) -/

/-- `BiquadState_t` (biquad.h lines 46-56): the five normalized coefficients
together with the delay-line history. -/
structure BiquadState_t where
  b0 : ℚ
  b1 : ℚ
  b2 : ℚ
  a1 : ℚ
  a2 : ℚ
  x1 : ℚ
  x2 : ℚ
  y1 : ℚ
  y2 : ℚ
  deriving DecidableEq, Repr

/-- `Biquad_Reset` (biquad.c lines 47-54): clears the four history values. -/
def Biquad_Reset (state : BiquadState_t) : BiquadState_t :=
  { state with x1 := 0, x2 := 0, y1 := 0, y2 := 0 }

/-- `Biquad_DirectFormII` (biquad.c lines 184-197): Direct Form II second-order
section; returns the output sample and the updated state. -/
def Biquad_DirectFormII (state : BiquadState_t) (input : ℚ) : ℚ × BiquadState_t :=
  let w0 := input - state.a1 * state.y1 - state.a2 * state.y2
  let output := state.b0 * w0 + state.b1 * state.y1 + state.b2 * state.y2
  (output, { state with y2 := state.y1, y1 := w0 })

/-- `Biquad_ProcessSample` (biquad.c lines 172-175): delegates to
`Biquad_DirectFormII`. -/
def Biquad_ProcessSample (state : BiquadState_t) (input : ℚ) : ℚ × BiquadState_t :=
  Biquad_DirectFormII state input

/-! ## Limiter (DSP/Src/limiter_proc.c)

The per-channel global `limiterState[channel]` becomes an explicit
`LimiterState_Internal` record; `Limiter_GetConfig(channel)` (not under `src/`,
only its use sites are) becomes an explicit `Limiter_TypeDef` argument carrying
exactly the fields `limiter_proc.c` reads. -/

/-- Return status of the limiter entry points (limiter_types.h style). -/
inductive LimiterStatus_TypeDef where
  | LIMITER_OK
  | LIMITER_ERROR
  deriving DecidableEq, Repr

/-- The configuration fields of `Limiter_TypeDef` that `limiter_proc.c` reads:
linear threshold, knee width, attack/release (ms), adaptive release and the
ISP / lookahead switches. -/
structure Limiter_TypeDef where
  threshold : ℚ
  knee : ℚ
  attackTime : ℚ
  releaseTime : ℚ
  adaptiveRelease : Bool
  enableISP : Bool
  enableLookahead : Bool
  lookaheadTime : ℕ
  deriving DecidableEq, Repr

/-- `LimiterState_Internal` (limiter_proc.c lines 25-36).  `attackTime` and
`releaseTime` here are the per-sample time constants produced by
`Limiter_CalculateTimingParameters`.  The fixed-size C array
`lookaheadBuffer[LIMITER_MAX_LOOKAHEAD]` is a list whose length plays the role
of `LIMITER_MAX_LOOKAHEAD` (the macro's value is not under `src/`). -/
structure LimiterState_Internal where
  currentGain : ℚ
  peakLevel : ℚ
  releaseTime : ℚ
  attackTime : ℚ
  holdCounter : ℕ
  targetGain : ℚ
  envelope : ℚ
  lookaheadBuffer : List ℚ
  lookaheadIndex : ℕ
  prevSample : ℚ
  deriving DecidableEq, Repr

/-- `MIN_GAIN_DB` (limiter_proc.c line 43). -/
def MIN_GAIN_DB : ℚ := -24

/-- `ENVELOPE_SMOOTHING` (limiter_proc.c line 44). -/
def ENVELOPE_SMOOTHING : ℚ := 9 / 10

/-- `DEFAULT_HOLD_SAMPLES` (limiter_proc.c line 45). -/
def DEFAULT_HOLD_SAMPLES : ℕ := 50

/-- Rational stand-in for `DB_TO_LINEAR(MIN_GAIN_DB)` = 10^(-24/20) ≈ 0.0630957.
The source guards `20.0f * log10f(gainReduction) < MIN_GAIN_DB`; since
`x ↦ 20·log10 x` is strictly monotone on positives, that guard is exactly the
linear comparison `gainReduction < 10^(-24/20)`, which is how it is written in
`Limiter_CalculateGainReduction` below to stay inside rational arithmetic. -/
def MIN_GAIN_LIN : ℚ := 630957 / 10000000

/-- `Limiter_ApplyInterSampleProtection` (limiter_proc.c lines 277-314). -/
def Limiter_ApplyInterSampleProtection (config : Limiter_TypeDef)
    (state : LimiterState_Internal) (inputSample : ℚ) : ℚ :=
  if ¬config.enableISP then inputSample
  else
    let prevSample := state.prevSample
    let predictedPeak :=
      if (inputSample > 0 ∧ prevSample > 0) ∨ (inputSample < 0 ∧ prevSample < 0) then
        if |inputSample| > |prevSample| then inputSample * (105 / 100)
        else prevSample * (105 / 100)
      else
        let t := |prevSample| / (|prevSample| + |inputSample|)
        let maxPossibleValue := |prevSample| * (1 - t) + |inputSample| * t
        maxPossibleValue * (115 / 100)
    if |predictedPeak| > |inputSample| then
      if inputSample ≥ 0 then predictedPeak else -predictedPeak
    else inputSample

/-- `Limiter_ProcessLookahead` (limiter_proc.c lines 322-345).  The modulus
`LIMITER_MAX_LOOKAHEAD` is the length of the lookahead buffer. -/
def Limiter_ProcessLookahead (config : Limiter_TypeDef)
    (state : LimiterState_Internal) (inputSample : ℚ) : ℚ × LimiterState_Internal :=
  if ¬config.enableLookahead ∨ config.lookaheadTime = 0 then (inputSample, state)
  else
    let L := state.lookaheadBuffer.length
    let buf := state.lookaheadBuffer.set state.lookaheadIndex inputSample
    let outputIndex := (state.lookaheadIndex + L - config.lookaheadTime) % L
    let outputSample := buf.getD outputIndex 0
    (outputSample,
      { state with lookaheadBuffer := buf, lookaheadIndex := (state.lookaheadIndex + 1) % L })

/-- `Limiter_CalculateGainReduction` (limiter_proc.c lines 188-229): returns the
computed gain reduction and the state with `targetGain`/`holdCounter` updated.
The C decrements `holdCounter` only when it is positive; natural-number
subtraction `holdCounter - 1` is exactly that. -/
def Limiter_CalculateGainReduction (config : Limiter_TypeDef)
    (state : LimiterState_Internal) (inputLevel : ℚ) : ℚ × LimiterState_Internal :=
  if inputLevel > config.threshold then
    let gainReduction := config.threshold / inputLevel
    let gainReduction :=
      if config.knee > 0 then
        let kneeStart := config.threshold - config.knee / 2
        let kneeEnd := config.threshold + config.knee / 2
        if inputLevel < kneeEnd then
          let kneeRatio := (inputLevel - kneeStart) / config.knee
          1 - kneeRatio * (1 - gainReduction)
        else gainReduction
      else gainReduction
    let gainReduction := if gainReduction < MIN_GAIN_LIN then MIN_GAIN_LIN else gainReduction
    (gainReduction,
      { state with targetGain := gainReduction, holdCounter := DEFAULT_HOLD_SAMPLES })
  else
    (1, { state with targetGain := 1, holdCounter := state.holdCounter - 1 })

/-- `Limiter_UpdateReleaseEnvelope` (limiter_proc.c lines 237-269). -/
def Limiter_UpdateReleaseEnvelope (config : Limiter_TypeDef)
    (state : LimiterState_Internal) (gainReduction : ℚ) : LimiterState_Internal :=
  if state.holdCounter > 0 then { state with currentGain := state.targetGain }
  else if gainReduction < state.currentGain then
    let attackCoeff := 1 / state.attackTime
    { state with currentGain :=
        state.currentGain * (1 - attackCoeff) + gainReduction * attackCoeff }
  else if gainReduction > state.currentGain then
    let releaseCoeff := 1 / state.releaseTime
    let g := state.currentGain * (1 - releaseCoeff) + gainReduction * releaseCoeff
    if config.adaptiveRelease then
      let adaptiveScale := 1 + 5 * (1 - g)
      { state with currentGain :=
          g * (1 - releaseCoeff / adaptiveScale) + gainReduction * (releaseCoeff / adaptiveScale) }
    else { state with currentGain := g }
  else state

/-- `Limiter_ProcessSample` (limiter_proc.c lines 145-180): ISP, lookahead,
peak-envelope update, gain computation, gain application (with the gain held by
the state *before* the envelope update), envelope update, hard clip to
`[-1, 1]`, and `prevSample` bookkeeping. -/
def Limiter_ProcessSample (config : Limiter_TypeDef)
    (state : LimiterState_Internal) (inputSample : ℚ) : ℚ × LimiterState_Internal :=
  let processedSample := Limiter_ApplyInterSampleProtection config state inputSample
  let la := Limiter_ProcessLookahead config state processedSample
  let processedSample := la.1
  let state := la.2
  let sampleAbs := |processedSample|
  let newPeak :=
    max sampleAbs (ENVELOPE_SMOOTHING * state.peakLevel + (1 - ENVELOPE_SMOOTHING) * sampleAbs)
  let state := { state with peakLevel := newPeak }
  let gr := Limiter_CalculateGainReduction config state state.peakLevel
  let gainReduction := gr.1
  let state := gr.2
  let outputSample := processedSample * state.currentGain
  let state := Limiter_UpdateReleaseEnvelope config state gainReduction
  let outputSample := if outputSample > 1 then 1 else outputSample
  let outputSample := if outputSample < -1 then -1 else outputSample
  (outputSample, { state with prevSample := inputSample })

/-- The per-sample loop of `Limiter_ProcessBlock` (limiter_proc.c lines 131-134),
threading the channel state through the block. -/
def Limiter_processList (config : Limiter_TypeDef) :
    LimiterState_Internal → List ℚ → List ℚ × LimiterState_Internal
  | state, [] => ([], state)
  | state, x :: xs =>
    let p := Limiter_ProcessSample config state x
    let q := Limiter_processList config p.2 xs
    (p.1 :: q.1, q.2)

/-- `Limiter_ProcessBlock` (limiter_proc.c lines 125-137).  The C buffer pointer
becomes `Option (List ℚ)` (`none` = `NULL`); its length plays the role of
`blockSize`.  Rejects an uninitialized module, a bad channel or a null buffer,
otherwise limits every sample in place. -/
def Limiter_ProcessBlock (config : Limiter_TypeDef) (limiterInitialized : Bool)
    (channel : ℕ) (pData : Option (List ℚ)) (state : LimiterState_Internal) :
    LimiterStatus_TypeDef × Option (List ℚ) × LimiterState_Internal :=
  match pData with
  | none => (.LIMITER_ERROR, none, state)
  | some data =>
    if ¬limiterInitialized ∨ AUDIO_OUTPUT_CHANNELS ≤ channel then
      (.LIMITER_ERROR, some data, state)
    else
      let r := Limiter_processList config state data
      (.LIMITER_OK, some r.1, r.2)

/-! ## Audio driver output stage (Audio/Src/audio_driver.c) -/

/-- HAL status values used across the repository. -/
inductive HAL_StatusTypeDef where
  | HAL_OK
  | HAL_ERROR
  deriving DecidableEq, Repr

/-- `AUDIO_MAX_VALUE` (audio_driver.h line 37): 2^23 − 1 for 24-bit audio. -/
def AUDIO_MAX_VALUE : ℚ := 8388607

/-- Truncation toward zero of a rational, as a C cast `(int32_t)x` behaves
for in-range values. -/
def truncQ (q : ℚ) : ℤ := q.num.tdiv q.den

/-- `FLOAT_TO_INT24(x)` (audio_driver.c line 35). -/
def FLOAT_TO_INT24 (x : ℚ) : ℤ := truncQ (x * AUDIO_MAX_VALUE)

/-- The output-side fields of `AudioDriverStatus_TypeDef` that
`Audio_PrepareOutputSamples` reads, indexed by output channel. -/
structure AudioDriverStatus_TypeDef where
  outputGain : ℕ → ℚ
  outputMute : ℕ → Bool

/-- The per-sample body of `Audio_PrepareOutputSamples` (audio_driver.c lines
443-454): take the processed sample, apply output mute (forcing `0.0`) or
output gain, then hard-limit to `[-1, 1]` with `CLAMP`. -/
def Audio_PrepareOutputSample (status : AudioDriverStatus_TypeDef) (ch : ℕ) (x : ℚ) : ℚ :=
  let sample := if status.outputMute ch then 0 else x * status.outputGain ch
  CLAMP sample (-1) 1

/-- `Audio_PrepareOutputSamples` (audio_driver.c lines 433-463) as the map it
performs from the processed audio buffer to the DMA words: for channel `ch` and
frame index `i`, the prepared (muted/gained/clamped) sample converted to a
24-bit integer. -/
def Audio_PrepareOutputSamples (status : AudioDriverStatus_TypeDef)
    (buffer : ℕ → ℕ → ℚ) : ℕ → ℕ → ℤ :=
  fun ch i => FLOAT_TO_INT24 (Audio_PrepareOutputSample status ch (buffer ch i))

/-! ## Routing matrix (Audio/Src/audio_routing.c) -/

/-- `AudioSource_TypeDef` (audio_routing.h): the selectable sources. -/
inductive AudioSource_TypeDef where
  | AUDIO_SOURCE_NONE
  | AUDIO_SOURCE_IN1
  | AUDIO_SOURCE_IN2
  | AUDIO_SOURCE_IN1_IN2_MIX
  | AUDIO_SOURCE_IN1_ONLY_LEFT
  | AUDIO_SOURCE_IN1_ONLY_RIGHT
  | AUDIO_SOURCE_IN2_ONLY_LEFT
  | AUDIO_SOURCE_IN2_ONLY_RIGHT
  deriving DecidableEq, Repr

/-- `AudioRouting_TypeDef` as used by `audio_routing.c`: per-output source,
mix level and mute, per-input gain, stereo-link flags and the mono-sum switch. -/
structure AudioRouting_cfg where
  source : ℕ → AudioSource_TypeDef
  mixLevel : ℕ → ℚ
  outputMute : ℕ → Bool
  inputGain : ℕ → ℚ
  stereoLink : ℕ → Bool
  monoSumInputs : Bool

/-- `ProcessChannelRouting` (audio_routing.c lines 385-500): produce the routed
samples of one output channel from the (gain-adjusted) input frame.  A muted
channel gets zeros before any source selection; `IN1_ONLY_LEFT`/`IN1_ONLY_RIGHT`
both read input channel 0 and `IN2_ONLY_LEFT`/`IN2_ONLY_RIGHT` both read input
channel 1, exactly as every branch of the source `switch` does. -/
def ProcessChannelRouting (cfg : AudioRouting_cfg) (outputChannel : ℕ)
    (inputSamples : ℕ → ℕ → ℚ) (bufferSize : ℕ) : List ℚ :=
  if cfg.outputMute outputChannel then List.replicate bufferSize 0
  else
    match cfg.source outputChannel with
    | .AUDIO_SOURCE_NONE => List.replicate bufferSize 0
    | .AUDIO_SOURCE_IN1 => (List.range bufferSize).map (fun i => inputSamples 0 i)
    | .AUDIO_SOURCE_IN2 => (List.range bufferSize).map (fun i => inputSamples 1 i)
    | .AUDIO_SOURCE_IN1_IN2_MIX =>
      let mixLevel := cfg.mixLevel outputChannel
      (List.range bufferSize).map
        (fun i => inputSamples 0 i * mixLevel + inputSamples 1 i * (1 - mixLevel))
    | .AUDIO_SOURCE_IN1_ONLY_LEFT => (List.range bufferSize).map (fun i => inputSamples 0 i)
    | .AUDIO_SOURCE_IN1_ONLY_RIGHT => (List.range bufferSize).map (fun i => inputSamples 0 i)
    | .AUDIO_SOURCE_IN2_ONLY_LEFT => (List.range bufferSize).map (fun i => inputSamples 1 i)
    | .AUDIO_SOURCE_IN2_ONLY_RIGHT => (List.range bufferSize).map (fun i => inputSamples 1 i)

/-! ## Real-analytic helpers

`sinf`, `cosf`, `powf(10, ·)`, `sqrtf` and `log10f` only feed parameter/
coefficient values; they are carried as an explicit record of rational
functions so that every statement below holds for the true transcendental
functions in particular. -/

/-- The transcendental helpers the DSP sources call, as abstract rational
functions (`piq` stands in for `M_PI`). -/
structure MathOps where
  piq : ℚ
  sinq : ℚ → ℚ
  cosq : ℚ → ℚ
  sqrtq : ℚ → ℚ
  pow10 : ℚ → ℚ
  log10 : ℚ → ℚ

/-! ## Compressor (DSP/Src/compressor_proc.c) -/

/-- `COMP_DB_MIN` (compressor_proc.c line 31). -/
def COMP_DB_MIN : ℚ := -120

/-- `COMP_GAIN_SMOOTHING_COEF` (compressor_proc.c line 33). -/
def COMP_GAIN_SMOOTHING_COEF : ℚ := 9995 / 10000

/-- `COMP_RMS_WINDOW_SIZE` (compressor_proc.c line 34). -/
def COMP_RMS_WINDOW_SIZE : ℕ := 32

/-- `COMP_MIN_GAIN_DB` (compressor_proc.c line 35). -/
def COMP_MIN_GAIN_DB : ℚ := -60

/-- `COMP_MAX_GAIN_DB` (compressor_proc.c line 36). -/
def COMP_MAX_GAIN_DB : ℚ := 0

/-- `DB_TO_LINEAR` macro (compressor_proc.c line 39). -/
def Comp_DB_TO_LINEAR (ops : MathOps) (x : ℚ) : ℚ :=
  if x ≤ COMP_DB_MIN then 0 else ops.pow10 (x / 20)

/-- `LINEAR_TO_DB` macro (compressor_proc.c line 40). -/
def Comp_LINEAR_TO_DB (ops : MathOps) (x : ℚ) : ℚ :=
  if x ≤ 0 then COMP_DB_MIN else 20 * ops.log10 x

/-- `CompressorParameters_TypeDef` (compressor_types.h) as read by
`compressor_proc.c`. -/
structure CompressorParameters_TypeDef where
  enabled : Bool
  threshold_db : ℚ
  ratio : ℚ
  attackTime_ms : ℚ
  releaseTime_ms : ℚ
  makeupGain_db : ℚ
  kneeWidth_db : ℚ
  useSoftKnee : Bool
  useRMS : Bool
  deriving DecidableEq, Repr

/-- Per-channel compressor statistics (compressor_proc.c lines 253-256). -/
structure CompressorStatistics_TypeDef where
  gainReduction_db : ℚ
  inputLevel_db : ℚ
  outputLevel_db : ℚ
  deriving DecidableEq, Repr

/-- `CompressorState_TypeDef` for one channel, together with that channel's
rows of the file-static `rmsBuffer`/`rmsBufferIndex` arrays. -/
structure CompressorState_TypeDef where
  envelope_db : ℚ
  currentGain : ℚ
  prevGainDb : ℚ
  rmsValue : ℚ
  attackCoeff : ℚ
  releaseCoeff : ℚ
  params : CompressorParameters_TypeDef
  stats : CompressorStatistics_TypeDef
  rmsBuffer : ℕ → ℚ
  rmsBufferIndex : ℕ

/-- `Compressor_CalculateRMS` (compressor_proc.c lines 265-286). -/
def Compressor_CalculateRMS (ops : MathOps) (state : CompressorState_TypeDef)
    (sample : ℚ) : ℚ × CompressorState_TypeDef :=
  let buf := Function.update state.rmsBuffer state.rmsBufferIndex (sample * sample)
  let idx := (state.rmsBufferIndex + 1) % COMP_RMS_WINDOW_SIZE
  let sum := (List.range COMP_RMS_WINDOW_SIZE).foldl (fun acc i => acc + buf i) 0
  let rms := ops.sqrtq (sum / COMP_RMS_WINDOW_SIZE)
  (rms, { state with rmsBuffer := buf, rmsBufferIndex := idx, rmsValue := rms })

/-- `Compressor_CalculateEnvelope` (compressor_proc.c lines 294-313). -/
def Compressor_CalculateEnvelope (state : CompressorState_TypeDef)
    (level_db : ℚ) : ℚ × CompressorState_TypeDef :=
  let envelope_db :=
    if level_db > state.envelope_db then
      state.attackCoeff * state.envelope_db + (1 - state.attackCoeff) * level_db
    else
      state.releaseCoeff * state.envelope_db + (1 - state.releaseCoeff) * level_db
  (envelope_db, { state with envelope_db := envelope_db })

/-- `Compressor_ApplySoftKnee` (compressor_proc.c lines 355-381). -/
def Compressor_ApplySoftKnee (params : CompressorParameters_TypeDef) (input_db : ℚ) : ℚ :=
  let threshold_db := params.threshold_db
  let knee_width := params.kneeWidth_db
  let knee_lower := threshold_db - knee_width / 2
  let knee_upper := threshold_db + knee_width / 2
  if input_db < knee_lower then 0
  else if input_db > knee_upper then
    let excess_db := input_db - threshold_db
    let gain_db := excess_db - excess_db / params.ratio
    let gain_db := -gain_db; gain_db
  else
    let knee_position := (input_db - knee_lower) / knee_width
    let transition_ratio := 1 + (params.ratio - 1) * knee_position
    let excess_db := input_db - knee_lower
    let gain_db := excess_db - excess_db / transition_ratio
    let gain_db := -gain_db; gain_db

/-- `Compressor_CalculateGain` (compressor_proc.c lines 321-347). -/
def Compressor_CalculateGain (state : CompressorState_TypeDef) (envelope_db : ℚ) : ℚ :=
  let params := state.params
  let gain_db :=
    if params.useSoftKnee then Compressor_ApplySoftKnee params envelope_db
    else if envelope_db > params.threshold_db then
      let excess_db := envelope_db - params.threshold_db
      let g := excess_db - excess_db / params.ratio
      let g := -g; g
    else 0
  CLAMP gain_db COMP_MIN_GAIN_DB COMP_MAX_GAIN_DB

/-- The per-sample body of `Compressor_Process` (compressor_proc.c lines
216-250). -/
def Compressor_processSample (ops : MathOps) (state : CompressorState_TypeDef)
    (sample : ℚ) : ℚ × CompressorState_TypeDef :=
  let params := state.params
  let lv :=
    if params.useRMS then Compressor_CalculateRMS ops state sample
    else (|sample|, state)
  let level := lv.1
  let state := lv.2
  let level_db := if level > 0 then Comp_LINEAR_TO_DB ops level else COMP_DB_MIN
  let env := Compressor_CalculateEnvelope state level_db
  let state := env.2
  let gain_db := Compressor_CalculateGain state env.1
  let gain_db := gain_db + params.makeupGain_db
  let prevGainDb := state.prevGainDb * COMP_GAIN_SMOOTHING_COEF +
    gain_db * (1 - COMP_GAIN_SMOOTHING_COEF)
  let gain := Comp_DB_TO_LINEAR ops prevGainDb
  let state := { state with prevGainDb := prevGainDb, currentGain := gain }
  (sample * gain, state)

/-- The compressor's per-block loop threading the channel state. -/
def Compressor_processList (ops : MathOps) :
    CompressorState_TypeDef → List ℚ → List ℚ × CompressorState_TypeDef
  | state, [] => ([], state)
  | state, x :: xs =>
    let p := Compressor_processSample ops state x
    let q := Compressor_processList ops p.2 xs
    (p.1 :: q.1, q.2)

/-- `Compressor_Process` (compressor_proc.c lines 202-257): invalid channel or
null buffer returns with nothing touched; a disabled compressor returns before
reading or writing anything; otherwise every sample is compressed in place and
the statistics are refreshed. -/
def Compressor_Process (ops : MathOps) (channel : ℕ)
    (pData : Option (List ℚ)) (state : CompressorState_TypeDef) :
    Option (List ℚ) × CompressorState_TypeDef :=
  match pData with
  | none => (none, state)
  | some data =>
    if AUDIO_OUTPUT_CHANNELS ≤ channel then (some data, state)
    else if ¬state.params.enabled then (some data, state)
    else
      let r := Compressor_processList ops state data
      let state := r.2
      let grDb := -state.prevGainDb + state.params.makeupGain_db
      let inDb := Comp_LINEAR_TO_DB ops state.rmsValue
      let state := { state with stats :=
        { gainReduction_db := grDb, inputLevel_db := inDb, outputLevel_db := inDb - grDb } }
      (some r.1, state)

/-! ## Crossover (DSP/Src/crossover_filter.c) -/

/-- `CROSSOVER_MIN_FREQ` (crossover_filter.c line 35). -/
def CROSSOVER_MIN_FREQ : ℚ := 20

/-- `CROSSOVER_MAX_FREQ` (crossover_filter.c line 36). -/
def CROSSOVER_MAX_FREQ : ℚ := 20000

/-- `MAX_FILTER_ORDER` (crossover_filter.c line 34). -/
def MAX_FILTER_ORDER : ℕ := 12

/-- `MAX_FILTER_STAGES` (crossover_filter.c line 33). -/
def MAX_FILTER_STAGES : ℕ := 8

/-- `CrossoverFilterType_TypeDef` (crossover.h). -/
inductive CrossoverFilterType_TypeDef where
  | CROSSOVER_TYPE_BUTTERWORTH
  | CROSSOVER_TYPE_LINKWITZ_RILEY
  | CROSSOVER_TYPE_BESSEL
  deriving DecidableEq, Repr

/-- `CrossoverFilterMode_TypeDef` (crossover.h). -/
inductive CrossoverFilterMode_TypeDef where
  | CROSSOVER_MODE_LOWPASS
  | CROSSOVER_MODE_HIGHPASS
  | CROSSOVER_MODE_BANDPASS
  | CROSSOVER_MODE_FULLRANGE
  deriving DecidableEq, Repr

/-- `CrossoverFrequencyType_TypeDef` (crossover.h). -/
inductive CrossoverFrequencyType_TypeDef where
  | CROSSOVER_FREQ_LOW
  | CROSSOVER_FREQ_HIGH
  deriving DecidableEq, Repr

/-- `CrossoverConfig_TypeDef` as read/written by `crossover_filter.c`. -/
structure CrossoverConfig_TypeDef where
  type : CrossoverFilterType_TypeDef
  filterMode : CrossoverFilterMode_TypeDef
  lowFrequency : ℚ
  highFrequency : ℚ
  order : ℕ
  deriving DecidableEq, Repr

/-- Modelled from the spec: `Biquad_Process`, the per-stage biquad call made by
`crossover_filter.c` and `peq_filter.c`, whose implementation is not under
`src/` (only declared).  Per §4.1 it is the Direct-Form-II second-order section,
i.e. the same computation as `Biquad_DirectFormII` in biquad.c. -/
def Biquad_Process (state : BiquadState_t) (input : ℚ) : ℚ × BiquadState_t :=
  Biquad_DirectFormII state input

/-- `FilterChain_TypeDef` (crossover_filter.c lines 39-43): the list of active
biquad stages (its length is `numStages`) and the gain-compensation factor. -/
structure FilterChain_TypeDef where
  stages : List BiquadState_t
  gain : ℚ
  deriving DecidableEq, Repr

/-- The stage loop of `ProcessFilterChain` (crossover_filter.c lines 477-479):
run the sample through each biquad in sequence, returning the final sample and
the updated stages. -/
def processChainStages : List BiquadState_t → ℚ → ℚ × List BiquadState_t
  | [], x => (x, [])
  | s :: rest, x =>
    let p := Biquad_Process s x
    let q := processChainStages rest p.1
    (q.1, p.2 :: q.2)

/-- `ProcessFilterChain` (crossover_filter.c lines 468-485): an empty chain
passes the input through untouched (without the gain factor); otherwise the
cascade output is scaled by the chain gain. -/
def ProcessFilterChain (filter : FilterChain_TypeDef) (input : ℚ) :
    ℚ × FilterChain_TypeDef :=
  if filter.stages.length = 0 then (input, filter)
  else
    let p := processChainStages filter.stages input
    (p.1 * filter.gain, { filter with stages := p.2 })

/-- One output channel's crossover state: its configuration slot of
`crossoverConfig[]` and its slots of the four file-static chain arrays. -/
structure CrossoverChannel where
  config : CrossoverConfig_TypeDef
  highpassFilters : FilterChain_TypeDef
  lowpassFilters : FilterChain_TypeDef
  bandpassHighFilters : FilterChain_TypeDef
  bandpassLowFilters : FilterChain_TypeDef
  deriving DecidableEq, Repr

/-- `Crossover_ProcessSample` (crossover_filter.c lines 244-275): an invalid
channel returns the sample unprocessed; otherwise the sample goes through the
chain(s) selected by the filter mode, with `CROSSOVER_MODE_FULLRANGE` (and the
`default` case) bypassing processing entirely. -/
def Crossover_ProcessSample (outputChannel : ℕ) (ch : CrossoverChannel)
    (input : ℚ) : ℚ × CrossoverChannel :=
  if AUDIO_OUTPUT_CHANNELS ≤ outputChannel then (input, ch)
  else
    match ch.config.filterMode with
    | .CROSSOVER_MODE_LOWPASS =>
      let p := ProcessFilterChain ch.lowpassFilters input
      (p.1, { ch with lowpassFilters := p.2 })
    | .CROSSOVER_MODE_HIGHPASS =>
      let p := ProcessFilterChain ch.highpassFilters input
      (p.1, { ch with highpassFilters := p.2 })
    | .CROSSOVER_MODE_BANDPASS =>
      let p := ProcessFilterChain ch.bandpassHighFilters input
      let q := ProcessFilterChain ch.bandpassLowFilters p.1
      (q.1, { ch with bandpassHighFilters := p.2, bandpassLowFilters := q.2 })
    | .CROSSOVER_MODE_FULLRANGE => (input, ch)

/-- `Crossover_SetFrequency` (crossover_filter.c lines 149-189): rejects an
invalid channel and any frequency outside `[CROSSOVER_MIN_FREQ,
CROSSOVER_MAX_FREQ]` with status 1 and no mutation; otherwise stores the
frequency (keeping band-pass low/high ordering 10 Hz apart) and returns 0.
The subsequent `CalculateFilterCoefficients` call rebuilds the chains through
the `Butterworth_*`/`LinkwitzRiley_*`/`Bessel_*` designers, which are declared
but not implemented under `src/`; the stored configuration is the observable
modelled here. -/
def Crossover_SetFrequency (outputChannel : ℕ) (cfg : CrossoverConfig_TypeDef)
    (frequencyType : CrossoverFrequencyType_TypeDef) (frequency : ℚ) :
    ℕ × CrossoverConfig_TypeDef :=
  if AUDIO_OUTPUT_CHANNELS ≤ outputChannel then (1, cfg)
  else if frequency < CROSSOVER_MIN_FREQ ∨ frequency > CROSSOVER_MAX_FREQ then (1, cfg)
  else if frequencyType = .CROSSOVER_FREQ_LOW then
    let cfg := { cfg with lowFrequency := frequency }
    let cfg :=
      if cfg.filterMode = .CROSSOVER_MODE_BANDPASS ∧ cfg.lowFrequency ≥ cfg.highFrequency then
        { cfg with lowFrequency := cfg.highFrequency - 10 }
      else cfg
    (0, cfg)
  else
    let cfg := { cfg with highFrequency := frequency }
    let cfg :=
      if cfg.filterMode = .CROSSOVER_MODE_BANDPASS ∧ cfg.highFrequency ≤ cfg.lowFrequency then
        { cfg with highFrequency := cfg.lowFrequency + 10 }
      else cfg
    (0, cfg)

/-- `Crossover_SetOrder` (crossover_filter.c lines 197-220): rejects an invalid
channel or an order outside `[1, MAX_FILTER_ORDER]`; for Linkwitz-Riley an odd
order is rounded up by `(order + 1) & ~1` (written here as `2 * ((order+1)/2)`,
which is the same bit-clear on the exercised range), then the order is stored
and status 0 returned.  Coefficient recomputation is as in
`Crossover_SetFrequency`. -/
def Crossover_SetOrder (outputChannel : ℕ) (cfg : CrossoverConfig_TypeDef)
    (order : ℕ) : ℕ × CrossoverConfig_TypeDef :=
  if AUDIO_OUTPUT_CHANNELS ≤ outputChannel then (1, cfg)
  else if order < 1 ∨ order > MAX_FILTER_ORDER then (1, cfg)
  else
    let order :=
      if cfg.type = .CROSSOVER_TYPE_LINKWITZ_RILEY ∧ order % 2 ≠ 0 then
        2 * ((order + 1) / 2)
      else order
    (0, { cfg with order := order })

/-! ## Filter designer (Filter/Src/filter_design.c) -/

/-- `FilterType_t` (filter_design.h): the filter types `FilterDesign_Create`
handles. -/
inductive FilterType_t where
  | FILTER_TYPE_LOWPASS
  | FILTER_TYPE_HIGHPASS
  | FILTER_TYPE_BANDPASS
  | FILTER_TYPE_BANDSTOP
  | FILTER_TYPE_LOW_SHELF
  | FILTER_TYPE_HIGH_SHELF
  | FILTER_TYPE_PEAKING_EQ
  | FILTER_TYPE_ALL_PASS
  deriving DecidableEq, Repr

/-- `FilterResponse_t` (filter_design.h). -/
inductive FilterResponse_t where
  | FILTER_RESPONSE_BUTTERWORTH
  | FILTER_RESPONSE_LINKWITZ_RILEY
  | FILTER_RESPONSE_BESSEL
  deriving DecidableEq, Repr

/-- The status codes of filter_design.h as an inductive. -/
inductive FilterDesignStatus where
  | FILTER_DESIGN_SUCCESS
  | FILTER_DESIGN_ERROR_PARAMS
  | FILTER_DESIGN_ERROR_TYPE
  | FILTER_DESIGN_ERROR_ORDER
  | FILTER_DESIGN_ERROR_RESPONSE
  deriving DecidableEq, Repr

/-- The frequency-validation prelude of `FilterDesign_Create` (filter_design.c
lines 71-78): a nonpositive frequency or sample rate is rejected as a parameter
error; a frequency at or above Nyquist is limited to `sampleFreq/2 - 1`; every
other frequency reaches the design formulas unchanged.  Returns the frequency
actually used, or `none` for `FILTER_DESIGN_ERROR_PARAMS`. -/
def FilterDesign_Create_effectiveFreq (freq sampleFreq : ℚ) : Option ℚ :=
  if freq ≤ 0 ∨ sampleFreq ≤ 0 then none
  else if freq ≥ sampleFreq / 2 then some (sampleFreq / 2 - 1)
  else some freq

/-- The frequency handling the spec sentence for C4 describes: the input
clamped into `[20, min(20000, sampleRate/2 − 1)]` before any trigonometric
computation, for every input.  (Spec-side definition, for comparison with
`FilterDesign_Create_effectiveFreq`.) -/
def specFrequencyClamp (freq sampleFreq : ℚ) : ℚ :=
  CLAMP freq 20 (min 20000 (sampleFreq / 2 - 1))

/-- `ComputeQForButterworthOrder` (filter_design.c lines 632-689), with the C
decimal literals as exact rationals. -/
def ComputeQForButterworthOrder (order sectionIdx : ℕ) : ℚ :=
  if order % 2 = 1 ∧ sectionIdx = 0 then 1 / 2
  else
    let actualSection := if order % 2 = 1 then sectionIdx - 1 else sectionIdx
    match order with
    | 2 => 7071 / 10000
    | 3 => 1
    | 4 =>
      if actualSection = 0 then 54 / 100
      else if actualSection = 1 then 131 / 100 else 0
    | 5 =>
      if actualSection = 0 then 62 / 100
      else if actualSection = 1 then 162 / 100 else 0
    | 6 =>
      if actualSection = 0 then 52 / 100
      else if actualSection = 1 then 71 / 100
      else if actualSection = 2 then 193 / 100 else 0
    | 7 =>
      if actualSection = 0 then 55 / 100
      else if actualSection = 1 then 80 / 100
      else if actualSection = 2 then 225 / 100 else 0
    | 8 =>
      if actualSection = 0 then 51 / 100
      else if actualSection = 1 then 60 / 100
      else if actualSection = 2 then 90 / 100
      else if actualSection = 3 then 256 / 100 else 0
    | _ => 7071 / 10000

/-- The arguments of one `FilterDesign_Create` call issued by
`FilterDesign_CreateCascade` for one cascade section. -/
structure DesignCall where
  filterType : FilterType_t
  freq : ℚ
  Q : ℚ
  gainDb : ℚ
  sampleFreq : ℚ
  deriving DecidableEq, Repr

/-- `FilterDesign_CreateCascade` (filter_design.c lines 148-251), with the
filter bank represented by the list of per-section design calls it issues (in
bank-index order).  The Bessel branch delegates to `Bessel_CreateFilter`, which
is declared in bessel.h but not implemented under `src/`, so it is carried as
the explicit argument `besselCreate`.  The individual `FilterDesign_Create`
calls cannot fail here because `freq > 0` and `sampleFreq > 0` were already
checked and every `FilterType_t` value is handled by its switch. -/
def FilterDesign_CreateCascade
    (besselCreate : ℕ → FilterType_t → ℚ → ℕ → ℚ →
      Except FilterDesignStatus (List DesignCall))
    (numFilters : ℕ) (filterType : FilterType_t) (freq : ℚ)
    (filterResponse : FilterResponse_t) (order : ℕ) (sampleFreq : ℚ) :
    Except FilterDesignStatus (List DesignCall) :=
  if numFilters < 1 ∨ freq ≤ 0 ∨ sampleFreq ≤ 0 then
    .error .FILTER_DESIGN_ERROR_PARAMS
  else
    let requiredFilters := (order + 1) / 2
    if numFilters < requiredFilters then .error .FILTER_DESIGN_ERROR_ORDER
    else if filterResponse = .FILTER_RESPONSE_LINKWITZ_RILEY then
      let order := if order % 2 ≠ 0 then order + 1 else order
      let butterworthOrder := order / 2
      let butterworthSections := (butterworthOrder + 1) / 2
      let firstHalf := (List.range butterworthSections).map fun i =>
        DesignCall.mk filterType freq (ComputeQForButterworthOrder butterworthOrder i) 0 sampleFreq
      let secondHalf := (List.range butterworthSections).map fun i =>
        DesignCall.mk filterType freq (ComputeQForButterworthOrder butterworthOrder i) 0 sampleFreq
      .ok (firstHalf ++ secondHalf)
    else
      match filterResponse with
      | .FILTER_RESPONSE_BUTTERWORTH =>
        .ok ((List.range requiredFilters).map fun i =>
          DesignCall.mk filterType freq (ComputeQForButterworthOrder order i) 0 sampleFreq)
      | .FILTER_RESPONSE_BESSEL =>
        if order > 8 then .error .FILTER_DESIGN_ERROR_ORDER
        else besselCreate numFilters filterType freq order sampleFreq
      | _ => .error .FILTER_DESIGN_ERROR_RESPONSE

/-! ## Parametric EQ (DSP/Src/peq_filter.c) -/

/-- `AUDIO_SAMPLE_RATE` (audio_config.h line 29). -/
def AUDIO_SAMPLE_RATE : ℚ := 48000

/-- `PEQ_MAX_BANDS_PER_CHANNEL` (peq_filter.c line 25). -/
def PEQ_MAX_BANDS_PER_CHANNEL : ℕ := 5

/-- `PEQ_MAX_Q_FACTOR` (peq_filter.c line 29). -/
def PEQ_MAX_Q_FACTOR : ℚ := 20

/-- The PEQ band types of peq.h handled by `PEQ_UpdateFilterCoefficients`; the
extra `PEQ_TYPE_INVALID` value exercises the `default` branch. -/
inductive PEQ_FilterType where
  | PEQ_TYPE_BELL
  | PEQ_TYPE_LOW_SHELF
  | PEQ_TYPE_HIGH_SHELF
  | PEQ_TYPE_LOW_PASS
  | PEQ_TYPE_HIGH_PASS
  | PEQ_TYPE_INVALID
  deriving DecidableEq, Repr

/-- `PEQBand_TypeDef` (peq.h): the user-facing band configuration. -/
structure PEQBand_TypeDef where
  type : PEQ_FilterType
  frequency : ℚ
  gain : ℚ
  q : ℚ
  enabled : Bool
  deriving DecidableEq, Repr

/-- `BiquadCoeffs_TypeDef` (peq.h): the computed coefficients including the
pre-normalization `a0`. -/
structure BiquadCoeffs_TypeDef where
  b0 : ℚ
  b1 : ℚ
  b2 : ℚ
  a0 : ℚ
  a1 : ℚ
  a2 : ℚ
  deriving DecidableEq, Repr

/-- `PEQ_CalculateBell` (peq_filter.c lines 296-330). -/
def PEQ_CalculateBell (ops : MathOps) (centerFreq gain Q fs : ℚ) :
    BiquadCoeffs_TypeDef :=
  let Q := if Q > PEQ_MAX_Q_FACTOR then PEQ_MAX_Q_FACTOR else Q
  let centerFreq := if centerFreq ≤ 0 then 20 else centerFreq
  let centerFreq := if centerFreq ≥ fs / 2 then fs / 2 - 1 else centerFreq
  let A := ops.pow10 (gain / 40)
  let omega := 2 * ops.piq * centerFreq / fs
  let sn := ops.sinq omega
  let cs := ops.cosq omega
  let alpha := sn / (2 * Q)
  let b0 := 1 + alpha * A
  let b1 := -2 * cs
  let b2 := 1 - alpha * A
  let a0 := 1 + alpha / A
  let a1 := -2 * cs
  let a2 := 1 - alpha / A
  { b0 := b0 / a0, b1 := b1 / a0, b2 := b2 / a0, a0 := 1, a1 := a1 / a0, a2 := a2 / a0 }

/-- `PEQ_CalculateLowShelf` (peq_filter.c lines 341-375). -/
def PEQ_CalculateLowShelf (ops : MathOps) (cutoffFreq gain Q fs : ℚ) :
    BiquadCoeffs_TypeDef :=
  let Q := if Q > PEQ_MAX_Q_FACTOR then PEQ_MAX_Q_FACTOR else Q
  let cutoffFreq := if cutoffFreq ≤ 0 then 20 else cutoffFreq
  let cutoffFreq := if cutoffFreq ≥ fs / 2 then fs / 2 - 1 else cutoffFreq
  let A := ops.pow10 (gain / 40)
  let omega := 2 * ops.piq * cutoffFreq / fs
  let sn := ops.sinq omega
  let cs := ops.cosq omega
  let alpha := sn / (2 * Q)
  let beta := 2 * ops.sqrtq A * alpha
  let b0 := A * ((A + 1) - (A - 1) * cs + beta)
  let b1 := 2 * A * ((A - 1) - (A + 1) * cs)
  let b2 := A * ((A + 1) - (A - 1) * cs - beta)
  let a0 := (A + 1) + (A - 1) * cs + beta
  let a1 := -2 * ((A - 1) + (A + 1) * cs)
  let a2 := (A + 1) + (A - 1) * cs - beta
  { b0 := b0 / a0, b1 := b1 / a0, b2 := b2 / a0, a0 := 1, a1 := a1 / a0, a2 := a2 / a0 }

/-- `PEQ_CalculateHighShelf` (peq_filter.c lines 386-420). -/
def PEQ_CalculateHighShelf (ops : MathOps) (cutoffFreq gain Q fs : ℚ) :
    BiquadCoeffs_TypeDef :=
  let Q := if Q > PEQ_MAX_Q_FACTOR then PEQ_MAX_Q_FACTOR else Q
  let cutoffFreq := if cutoffFreq ≤ 0 then 20 else cutoffFreq
  let cutoffFreq := if cutoffFreq ≥ fs / 2 then fs / 2 - 1 else cutoffFreq
  let A := ops.pow10 (gain / 40)
  let omega := 2 * ops.piq * cutoffFreq / fs
  let sn := ops.sinq omega
  let cs := ops.cosq omega
  let alpha := sn / (2 * Q)
  let beta := 2 * ops.sqrtq A * alpha
  let b0 := A * ((A + 1) + (A - 1) * cs + beta)
  let b1 := -2 * A * ((A - 1) + (A + 1) * cs)
  let b2 := A * ((A + 1) + (A - 1) * cs - beta)
  let a0 := (A + 1) - (A - 1) * cs + beta
  let a1 := 2 * ((A - 1) - (A + 1) * cs)
  let a2 := (A + 1) - (A - 1) * cs - beta
  { b0 := b0 / a0, b1 := b1 / a0, b2 := b2 / a0, a0 := 1, a1 := a1 / a0, a2 := a2 / a0 }

/-- `PEQ_CalculateLowPass` (peq_filter.c lines 430-460). -/
def PEQ_CalculateLowPass (ops : MathOps) (cutoffFreq Q fs : ℚ) :
    BiquadCoeffs_TypeDef :=
  let Q := if Q > PEQ_MAX_Q_FACTOR then PEQ_MAX_Q_FACTOR else Q
  let cutoffFreq := if cutoffFreq ≤ 0 then 20 else cutoffFreq
  let cutoffFreq := if cutoffFreq ≥ fs / 2 then fs / 2 - 1 else cutoffFreq
  let omega := 2 * ops.piq * cutoffFreq / fs
  let sn := ops.sinq omega
  let cs := ops.cosq omega
  let alpha := sn / (2 * Q)
  let b0 := (1 - cs) / 2
  let b1 := 1 - cs
  let b2 := (1 - cs) / 2
  let a0 := 1 + alpha
  let a1 := -2 * cs
  let a2 := 1 - alpha
  { b0 := b0 / a0, b1 := b1 / a0, b2 := b2 / a0, a0 := 1, a1 := a1 / a0, a2 := a2 / a0 }

/-- `PEQ_CalculateHighPass` (peq_filter.c lines 470-500). -/
def PEQ_CalculateHighPass (ops : MathOps) (cutoffFreq Q fs : ℚ) :
    BiquadCoeffs_TypeDef :=
  let Q := if Q > PEQ_MAX_Q_FACTOR then PEQ_MAX_Q_FACTOR else Q
  let cutoffFreq := if cutoffFreq ≤ 0 then 20 else cutoffFreq
  let cutoffFreq := if cutoffFreq ≥ fs / 2 then fs / 2 - 1 else cutoffFreq
  let omega := 2 * ops.piq * cutoffFreq / fs
  let sn := ops.sinq omega
  let cs := ops.cosq omega
  let alpha := sn / (2 * Q)
  let b0 := (1 + cs) / 2
  let b1 := -(1 + cs)
  let b2 := (1 + cs) / 2
  let a0 := 1 + alpha
  let a1 := -2 * cs
  let a2 := 1 - alpha
  { b0 := b0 / a0, b1 := b1 / a0, b2 := b2 / a0, a0 := 1, a1 := a1 / a0, a2 := a2 / a0 }

/-- Modelled from the spec: `Biquad_SetCoefficients`, called by
`PEQ_UpdateFilterCoefficients` on `PEQBiquadStates[channel][band]`, is not
under `src/` (only declared).  It installs the normalized coefficients into the
band's biquad and clears the state history, per §3 of the spec ("BiquadState
... must be cleared (all zero) whenever coefficients change") and §4.4
("resets only that band's state"). -/
def Biquad_SetCoefficients (coeffs : BiquadCoeffs_TypeDef) : BiquadState_t :=
  { b0 := coeffs.b0, b1 := coeffs.b1, b2 := coeffs.b2, a1 := coeffs.a1, a2 := coeffs.a2,
    x1 := 0, x2 := 0, y1 := 0, y2 := 0 }

/-- Pointwise update of a channel×band-indexed table at one cell. -/
def update2 {α : Type} (f : ℕ → ℕ → α) (i j : ℕ) (v : α) : ℕ → ℕ → α :=
  fun a b => if a = i ∧ b = j then v else f a b

/-- The file-static PEQ tables `PEQBands` and `PEQBiquadStates`
(peq_filter.c lines 35-38), indexed by output channel and band. -/
structure PEQState where
  bands : ℕ → ℕ → PEQBand_TypeDef
  states : ℕ → ℕ → BiquadState_t

/-- `PEQ_UpdateFilterCoefficients` (peq_filter.c lines 242-285): compute the
coefficients from the stored band configuration (the `default` branch yields a
pass-through) and install them into that band's biquad. -/
def PEQ_UpdateFilterCoefficients (ops : MathOps) (st : PEQState)
    (channel band : ℕ) : PEQState :=
  let fs := AUDIO_SAMPLE_RATE
  let peqBand := st.bands channel band
  let coeffs :=
    match peqBand.type with
    | .PEQ_TYPE_BELL => PEQ_CalculateBell ops peqBand.frequency peqBand.gain peqBand.q fs
    | .PEQ_TYPE_LOW_SHELF => PEQ_CalculateLowShelf ops peqBand.frequency peqBand.gain peqBand.q fs
    | .PEQ_TYPE_HIGH_SHELF => PEQ_CalculateHighShelf ops peqBand.frequency peqBand.gain peqBand.q fs
    | .PEQ_TYPE_LOW_PASS => PEQ_CalculateLowPass ops peqBand.frequency peqBand.q fs
    | .PEQ_TYPE_HIGH_PASS => PEQ_CalculateHighPass ops peqBand.frequency peqBand.q fs
    | .PEQ_TYPE_INVALID => { b0 := 1, b1 := 0, b2 := 0, a0 := 1, a1 := 0, a2 := 0 }
  { st with states := update2 st.states channel band (Biquad_SetCoefficients coeffs) }

/-- `PEQ_ConfigureBand` (peq_filter.c lines 85-128): rejects an invalid channel,
band index or null configuration; clamps frequency to `[20, 20000]`, Q to
`[0.1, 10]` and gain to `[-12, 12]`; stores the band configuration and
recomputes that band's filter coefficients. -/
def PEQ_ConfigureBand (ops : MathOps) (st : PEQState) (channel band : ℕ)
    (config : Option PEQBand_TypeDef) : HAL_StatusTypeDef × PEQState :=
  match config with
  | none => (.HAL_ERROR, st)
  | some cfg =>
    if AUDIO_OUTPUT_CHANNELS ≤ channel ∨ PEQ_MAX_BANDS_PER_CHANNEL ≤ band then
      (.HAL_ERROR, st)
    else
      let f := if cfg.frequency < 20 then 20
        else if cfg.frequency > 20000 then 20000 else cfg.frequency
      let q := if cfg.q < 1 / 10 then 1 / 10 else if cfg.q > 10 then 10 else cfg.q
      let g := if cfg.gain < -12 then -12 else if cfg.gain > 12 then 12 else cfg.gain
      let newBand : PEQBand_TypeDef :=
        { type := cfg.type, frequency := f, gain := g, q := q, enabled := cfg.enabled }
      let st := { st with bands := update2 st.bands channel band newBand }
      (.HAL_OK, PEQ_UpdateFilterCoefficients ops st channel band)

/-- `PEQ_GetBandConfig` (peq_filter.c lines 137-153). -/
def PEQ_GetBandConfig (st : PEQState) (channel band : ℕ) :
    HAL_StatusTypeDef × Option PEQBand_TypeDef :=
  if AUDIO_OUTPUT_CHANNELS ≤ channel ∨ PEQ_MAX_BANDS_PER_CHANNEL ≤ band then
    (.HAL_ERROR, none)
  else (.HAL_OK, some (st.bands channel band))

/-- The inner band loop of `PEQ_ProcessChannel` (peq_filter.c lines 206-214):
apply the enabled bands, in band-index order, to one sample. -/
def PEQ_applyBands (channel : ℕ) : List ℕ → PEQState → ℚ → ℚ × PEQState
  | [], st, x => (x, st)
  | b :: bs, st, x =>
    if ¬(st.bands channel b).enabled then PEQ_applyBands channel bs st x
    else
      let p := Biquad_Process (st.states channel b) x
      let st := { st with states := update2 st.states channel b p.2 }
      PEQ_applyBands channel bs st p.1

/-- The sample loop of `PEQ_ProcessChannel` (peq_filter.c lines 202-218). -/
def PEQ_processSamples (channel : ℕ) : PEQState → List ℚ → List ℚ × PEQState
  | st, [] => ([], st)
  | st, x :: xs =>
    let p := PEQ_applyBands channel (List.range PEQ_MAX_BANDS_PER_CHANNEL) st x
    let q := PEQ_processSamples channel p.2 xs
    (p.1 :: q.1, q.2)

/-- `PEQ_ProcessChannel` (peq_filter.c lines 185-219): invalid channel or null
buffer returns with nothing touched; otherwise every sample runs through each
*enabled* band in series (disabled bands are skipped, their state untouched). -/
def PEQ_ProcessChannel (channel : ℕ) (st : PEQState) (pData : Option (List ℚ)) :
    Option (List ℚ) × PEQState :=
  match pData with
  | none => (none, st)
  | some data =>
    if AUDIO_OUTPUT_CHANNELS ≤ channel then (some data, st)
    else
      let r := PEQ_processSamples channel st data
      (some r.1, r.2)

/-! ## Delay line (DSP/Src/delay_proc.c, DSP/Src/delay_init.c) -/

/-- `MAX_DELAY_CHANNELS`: the delay module serves one instance per output
channel (its macro is in headers not under `src/`; every use parallels
`AUDIO_OUTPUT_CHANNELS`). -/
def MAX_DELAY_CHANNELS : ℕ := 4

/-- `SPEED_OF_SOUND_M_PER_SEC` as used by delay_init.c/delay_proc.c: 343 m/s at
20 °C (the header under `src/` carries the same constant in cm/s). -/
def SPEED_OF_SOUND_M_PER_SEC : ℚ := 343

/-- `DelayInterpolation_TypeDef` (delay.h). -/
inductive DelayInterpolation_TypeDef where
  | DELAY_INTERPOLATION_LINEAR
  | DELAY_INTERPOLATION_CUBIC
  deriving DecidableEq, Repr

/-- `DelayUnit_TypeDef` (delay_types.h / delay.h as used by the .c files). -/
inductive DelayUnit_TypeDef where
  | DELAY_UNIT_MS
  | DELAY_UNIT_CM
  | DELAY_UNIT_INCH
  deriving DecidableEq, Repr

/-- `DelayInstance_TypeDef` as read/written by delay_proc.c and delay_init.c.
The C buffer of `bufferSize` floats is a function `ℕ → ℚ` together with the
explicit `bufferSize`. -/
structure DelayInstance_TypeDef where
  buffer : ℕ → ℚ
  bufferSize : ℕ
  writeIndex : ℕ
  delaySamples : ℚ
  sampleRate : ℚ
  maxDelayMs : ℚ
  currentDelayMs : ℚ
  currentDelayDistance : ℚ
  delayUnit : DelayUnit_TypeDef
  phaseInvert : Bool
  enabled : Bool
  isActive : Bool
  filterCoeff : ℚ
  prevSample : ℚ

/-- `ModuloBufferSize` (delay_proc.c lines 352-360): add `bufferSize` once for a
negative index, then C `%` (truncating, `Int.tmod`).  The C result type is
`uint32_t`; on every exercised path the value is already nonnegative, so
`Int.toNat` is the identity there. -/
def ModuloBufferSize (index : ℤ) (bufferSize : ℕ) : ℕ :=
  let i := if index < 0 then index + bufferSize else index
  (i.tmod bufferSize).toNat

/-- The `while (readPos < 0) readPos += bufferSize;` loop of
`ProcessSampleWithDelay` (delay_proc.c lines 266-268) in closed form: the loop
adds `bufferSize` the minimal number of times needed to reach a nonnegative
value, i.e. `⌈-readPos/bufferSize⌉` times.  (For `bufferSize = 0` the C loop
would not terminate; no exercised path has an empty buffer.) -/
def wrapReadPos (readPos : ℚ) (bufferSize : ℕ) : ℚ :=
  if readPos < 0 then readPos + bufferSize * ⌈-readPos / (bufferSize : ℚ)⌉ else readPos

/-- `InterpolateLinear` (delay_proc.c lines 307-315). -/
def InterpolateLinear (buffer : ℕ → ℚ) (bufferSize readIndex : ℕ)
    (fraction : ℚ) : ℚ :=
  let sample1 := buffer readIndex
  let sample2 := buffer (ModuloBufferSize ((readIndex : ℤ) + 1) bufferSize)
  sample1 + fraction * (sample2 - sample1)

/-- `InterpolateCubic` (delay_proc.c lines 325-344). -/
def InterpolateCubic (buffer : ℕ → ℚ) (bufferSize readIndex : ℕ)
    (fraction : ℚ) : ℚ :=
  let y0 := buffer (ModuloBufferSize ((readIndex : ℤ) - 1) bufferSize)
  let y1 := buffer readIndex
  let y2 := buffer (ModuloBufferSize ((readIndex : ℤ) + 1) bufferSize)
  let y3 := buffer (ModuloBufferSize ((readIndex : ℤ) + 2) bufferSize)
  let a0 := y3 - y2 - y0 + y1
  let a1 := y0 - y1 - a0
  let a2 := y2 - y0
  let a3 := y1
  let frac2 := fraction * fraction
  a0 * fraction * frac2 + a1 * frac2 + a2 * fraction + a3

/-- `ProcessSampleWithDelay` (delay_proc.c lines 254-297): write the input at
`writeIndex`, read back at the (wrapped, fractional) position
`writeIndex - delaySamples` with the configured interpolation, apply phase
inversion, apply the one-pole smoothing filter
`out = out*(1-filterCoeff) + prevSample*filterCoeff`, and advance the write
index.  The C cast `(int32_t)readPos` is truncation toward zero (`truncQ`). -/
def ProcessSampleWithDelay (interpolationMode : DelayInterpolation_TypeDef)
    (inst : DelayInstance_TypeDef) (input : ℚ) : ℚ × DelayInstance_TypeDef :=
  let buf := Function.update inst.buffer inst.writeIndex input
  let readPos := wrapReadPos ((inst.writeIndex : ℚ) - inst.delaySamples) inst.bufferSize
  let readIndexInt := truncQ readPos
  let fraction := readPos - (readIndexInt : ℚ)
  let readIndex := ModuloBufferSize readIndexInt inst.bufferSize
  let output :=
    if interpolationMode = .DELAY_INTERPOLATION_LINEAR then
      InterpolateLinear buf inst.bufferSize readIndex fraction
    else
      InterpolateCubic buf inst.bufferSize readIndex fraction
  let output := if inst.phaseInvert then -output else output
  let output := output * (1 - inst.filterCoeff) + inst.prevSample * inst.filterCoeff
  let nextWriteIndex := ModuloBufferSize ((inst.writeIndex : ℤ) + 1) inst.bufferSize
  (output, { inst with buffer := buf, prevSample := output, writeIndex := nextWriteIndex })

/-- The sample loop of `Delay_Process` (delay_proc.c lines 62-64). -/
def Delay_processList (mode : DelayInterpolation_TypeDef) :
    DelayInstance_TypeDef → List ℚ → List ℚ × DelayInstance_TypeDef
  | inst, [] => ([], inst)
  | inst, x :: xs =>
    let p := ProcessSampleWithDelay mode inst x
    let q := Delay_processList mode p.2 xs
    (p.1 :: q.1, q.2)

/-- `Delay_Process` (delay_proc.c lines 45-67): an invalid channel, a null
buffer or a zero-length block is rejected with `HAL_ERROR` (nothing touched);
an inactive or disabled channel passes the data through with `HAL_OK`;
otherwise every sample runs through the delay line. -/
def Delay_Process (mode : DelayInterpolation_TypeDef) (channel : ℕ)
    (pData : Option (List ℚ)) (inst : DelayInstance_TypeDef) :
    HAL_StatusTypeDef × Option (List ℚ) × DelayInstance_TypeDef :=
  match pData with
  | none => (.HAL_ERROR, none, inst)
  | some data =>
    if MAX_DELAY_CHANNELS ≤ channel ∨ data.length = 0 then (.HAL_ERROR, some data, inst)
    else if ¬inst.isActive ∨ ¬inst.enabled then (.HAL_OK, some data, inst)
    else
      let r := Delay_processList mode inst data
      (.HAL_OK, some r.1, r.2)

/-- `ApplyDelaySettings` (delay_init.c lines 263-280): recompute `delaySamples`
from the stored delay time, the temperature-compensation factor and the sample
rate; a bad channel or uninitialized delay system leaves the instance
unchanged. -/
def ApplyDelaySettings (isDelaySystemInitialized : Bool)
    (tempCompensationFactor : ℚ) (channel : ℕ)
    (inst : DelayInstance_TypeDef) : DelayInstance_TypeDef :=
  if MAX_DELAY_CHANNELS ≤ channel ∨ ¬isDelaySystemInitialized then inst
  else
    let compensatedDelayMs := inst.currentDelayMs / tempCompensationFactor
    { inst with delaySamples := compensatedDelayMs * inst.sampleRate / 1000 }

/-- `Delay_SetTime` (delay_proc.c lines 113-139): an invalid/inactive channel
or a delay time outside `[0, maxDelayMs]` is rejected with `HAL_ERROR` and no
mutation; otherwise the time (and its equivalent distance) is stored and
`ApplyDelaySettings` refreshes `delaySamples`. -/
def Delay_SetTime (isDelaySystemInitialized : Bool) (tempCompensationFactor : ℚ)
    (channel : ℕ) (delayMs : ℚ) (inst : DelayInstance_TypeDef) :
    HAL_StatusTypeDef × DelayInstance_TypeDef :=
  if MAX_DELAY_CHANNELS ≤ channel ∨ ¬inst.isActive then (.HAL_ERROR, inst)
  else if delayMs < 0 ∨ delayMs > inst.maxDelayMs then (.HAL_ERROR, inst)
  else
    let inst := { inst with
      currentDelayMs := delayMs,
      delayUnit := .DELAY_UNIT_MS,
      currentDelayDistance := delayMs * SPEED_OF_SOUND_M_PER_SEC / 1000 * 100 }
    (.HAL_OK, ApplyDelaySettings isDelaySystemInitialized tempCompensationFactor channel inst)

/-- The state of a delay channel after `k` samples of the stream `input` have
been pushed through `ProcessSampleWithDelay`. -/
def delayStateAt (mode : DelayInterpolation_TypeDef) (inst : DelayInstance_TypeDef)
    (input : ℕ → ℚ) : ℕ → DelayInstance_TypeDef
  | 0 => inst
  | k + 1 => (ProcessSampleWithDelay mode (delayStateAt mode inst input k) (input k)).2

/-- The `k`-th output sample of the delay channel fed the stream `input`. -/
def delayOutputAt (mode : DelayInterpolation_TypeDef) (inst : DelayInstance_TypeDef)
    (input : ℕ → ℚ) (k : ℕ) : ℚ :=
  (ProcessSampleWithDelay mode (delayStateAt mode inst input k) (input k)).1

/-- The impulse stream: `1.0` followed by zeros. -/
def impulseStream : ℕ → ℚ := fun k => if k = 0 then 1 else 0

/-! ## Concrete instances used by witnesses and counterexamples -/

/-- A limiter configuration with a −6 dB linear threshold (0.5), hard knee and
ISP/lookahead off; the remaining fields match the module defaults. -/
def limiterCfgEx : Limiter_TypeDef :=
  { threshold := 1/2, knee := 0, attackTime := 1/10, releaseTime := 50,
    adaptiveRelease := false, enableISP := false, enableLookahead := false,
    lookaheadTime := 0 }

/-- The limiter channel state right after `Limiter_Init`/`Limiter_Reset`
(limiter_proc.c lines 69-80), with the timing parameters for 0.1 ms attack and
50 ms release at 48 kHz. -/
def limiterStateEx : LimiterState_Internal :=
  { currentGain := 1, peakLevel := 0, releaseTime := 2400, attackTime := 5,
    holdCounter := 0, targetGain := 1, envelope := 0, lookaheadBuffer := [],
    lookaheadIndex := 0, prevSample := 0 }

/-- A delay instance as configured by `Delay_Init` + `Delay_ConfigChannel`:
flushed buffer, enabled, with the initialization default smoothing coefficient
`filterCoeff = 0.7` (delay_init.c line 72). -/
def delayInstEx : DelayInstance_TypeDef :=
  { buffer := fun _ => 0, bufferSize := 4, writeIndex := 0, delaySamples := 1,
    sampleRate := 48000, maxDelayMs := 20, currentDelayMs := 1/48,
    currentDelayDistance := 0, delayUnit := .DELAY_UNIT_MS, phaseInvert := false,
    enabled := true, isActive := true, filterCoeff := 7/10, prevSample := 0 }

/-- `delayInstEx` with the smoothing coefficient zeroed and a 2-sample delay. -/
def delayInstNoSmooth : DelayInstance_TypeDef :=
  { delayInstEx with delaySamples := 2, filterCoeff := 0 }

/-- A crossover channel sitting in full-range (bypass) mode. -/
def crossChannelEx : CrossoverChannel :=
  { config := { type := .CROSSOVER_TYPE_BUTTERWORTH,
                filterMode := .CROSSOVER_MODE_FULLRANGE,
                lowFrequency := 80, highFrequency := 2500, order := 4 },
    highpassFilters := { stages := [], gain := 1 },
    lowpassFilters := { stages := [], gain := 1 },
    bandpassHighFilters := { stages := [], gain := 1 },
    bandpassLowFilters := { stages := [], gain := 1 } }

/-- Placeholder transcendental helpers for concrete witnesses; the theorems
they instantiate hold for every `MathOps`, the true functions included. -/
def opsEx : MathOps :=
  { piq := 314159/100000, sinq := fun _ => 0, cosq := fun _ => 1,
    sqrtq := fun x => x, pow10 := fun _ => 1, log10 := fun _ => 0 }

/-- A biquad with unit pass-through coefficients and cleared history. -/
def biquadEx : BiquadState_t :=
  { b0 := 1, b1 := 0, b2 := 0, a1 := 0, a2 := 0, x1 := 0, x2 := 0, y1 := 0, y2 := 0 }

/-- The PEQ tables right after `PEQ_Init` (peq_filter.c lines 55-76): every
band a disabled 1 kHz bell at 0 dB. -/
def peqStEx : PEQState :=
  { bands := fun _ _ =>
      { type := .PEQ_TYPE_BELL, frequency := 1000, gain := 0, q := 1414/1000,
        enabled := false },
    states := fun _ _ => biquadEx }

/-- A compressor channel state with the module defaults and the compressor
disabled. -/
def compStateEx : CompressorState_TypeDef :=
  { envelope_db := -120, currentGain := 1, prevGainDb := 0, rmsValue := 0,
    attackCoeff := 0, releaseCoeff := 0,
    params := { enabled := false, threshold_db := -20, ratio := 4,
                attackTime_ms := 20, releaseTime_ms := 200, makeupGain_db := 0,
                kneeWidth_db := 6, useSoftKnee := true, useRMS := true },
    stats := { gainReduction_db := 0, inputLevel_db := 0, outputLevel_db := 0 },
    rmsBuffer := fun _ => 0, rmsBufferIndex := 0 }

/-- A routing configuration with output channel 0 muted. -/
def routingCfgEx : AudioRouting_cfg :=
  { source := fun _ => .AUDIO_SOURCE_IN1, mixLevel := fun _ => 1/2,
    outputMute := fun ch => ch = 0, inputGain := fun _ => 1,
    stereoLink := fun _ => true, monoSumInputs := false }

/-- A driver status with output channel 0 muted and unit gains. -/
def driverStatusEx : AudioDriverStatus_TypeDef :=
  { outputGain := fun _ => 1, outputMute := fun ch => ch = 0 }

/-- A Bessel designer placeholder for cascade witnesses; the Linkwitz-Riley
path never reaches it. -/
def besselCreateEx : ℕ → FilterType_t → ℚ → ℕ → ℚ →
    Except FilterDesignStatus (List DesignCall) :=
  fun _ _ _ _ _ => .error .FILTER_DESIGN_ERROR_RESPONSE

/-- `delayInstEx` with the channel disabled. -/
def delayDisabledEx : DelayInstance_TypeDef := { delayInstEx with enabled := false }

/-- A PEQ band request with every value parameter out of range. -/
def peqCfgOutOfRange : PEQBand_TypeDef :=
  { type := .PEQ_TYPE_BELL, frequency := 5, gain := 100, q := 50, enabled := true }

/-! ## Supporting lemmas -/

/-- The hard-clip tail of `Limiter_ProcessSample` keeps any value at or above −1. -/
theorem doubleClip_ge (o : ℚ) :
    -1 ≤ (if (if o > 1 then (1 : ℚ) else o) < -1 then -1 else if o > 1 then (1 : ℚ) else o) := by
  split_ifs <;> linarith

/-- The hard-clip tail of `Limiter_ProcessSample` keeps any value at or below 1. -/
theorem doubleClip_le (o : ℚ) :
    (if (if o > 1 then (1 : ℚ) else o) < -1 then -1 else if o > 1 then (1 : ℚ) else o) ≤ 1 := by
  split_ifs <;> linarith

/-- `CLAMP` never exceeds its upper bound. -/
theorem CLAMP_le_hi (x lo hi : ℚ) : CLAMP x lo hi ≤ hi := min_le_right _ _

/-- `CLAMP` never undercuts its lower bound when the bounds are ordered. -/
theorem le_CLAMP (x lo hi : ℚ) (h : lo ≤ hi) : lo ≤ CLAMP x lo hi :=
  le_min (le_max_right _ _) h

/-- The two-sided `if` clamp idiom of the C sources equals `CLAMP`. -/
theorem ite_clamp_eq (x lo hi : ℚ) (h : lo ≤ hi) :
    (if x < lo then lo else if x > hi then hi else x) = CLAMP x lo hi := by
  unfold CLAMP
  rcases lt_or_le x lo with h1 | h1
  · rw [if_pos h1, max_eq_right h1.le, min_eq_left h]
  · rw [if_neg (not_lt.mpr h1), max_eq_left h1]
    rcases le_or_lt x hi with h2 | h2
    · rw [if_neg (not_lt.mpr h2), min_eq_left h2]
    · rw [if_pos h2, min_eq_right h2.le]

/-- Truncation toward zero of an integer-valued rational is that integer. -/
theorem truncQ_intCast (m : ℤ) : truncQ (m : ℚ) = m := by
  unfold truncQ
  rw [Rat.num_intCast, Rat.den_intCast]
  exact Int.tdiv_one m

/-- Truncation toward zero of a natural-valued rational. -/
theorem truncQ_natCast (n : ℕ) : truncQ (n : ℚ) = (n : ℤ) := by
  simpa using truncQ_intCast (n : ℤ)

/-- On a nonnegative (natural) index, `ModuloBufferSize` is plain `%`. -/
theorem ModuloBufferSize_natCast (n B : ℕ) : ModuloBufferSize (n : ℤ) B = n % B := by
  unfold ModuloBufferSize
  rw [if_neg (by simp)]
  show (((n : ℤ)).tmod (B : ℤ)).toNat = n % B
  rw [Int.tmod_eq_emod (by positivity) (by positivity),
    show ((n : ℤ) % (B : ℤ)) = ((n % B : ℕ) : ℤ) from by push_cast; rfl]
  exact Int.toNat_natCast _

/-- `wrapReadPos` is the identity on nonnegative read positions. -/
theorem wrapReadPos_of_nonneg (x : ℚ) (B : ℕ) (h : 0 ≤ x) : wrapReadPos x B = x := by
  unfold wrapReadPos
  rw [if_neg (not_lt.mpr h)]

/-- The state half of `ProcessSampleWithDelay`: configuration fields are
carried over, the write index advances by one (mod buffer size) and the buffer
gains the input at the old write index. -/
theorem ProcessSampleWithDelay_state (mode : DelayInterpolation_TypeDef)
    (inst : DelayInstance_TypeDef) (input : ℚ) :
    ((ProcessSampleWithDelay mode inst input).2).bufferSize = inst.bufferSize ∧
    ((ProcessSampleWithDelay mode inst input).2).delaySamples = inst.delaySamples ∧
    ((ProcessSampleWithDelay mode inst input).2).phaseInvert = inst.phaseInvert ∧
    ((ProcessSampleWithDelay mode inst input).2).filterCoeff = inst.filterCoeff ∧
    ((ProcessSampleWithDelay mode inst input).2).writeIndex =
      ModuloBufferSize ((inst.writeIndex : ℤ) + 1) inst.bufferSize ∧
    ((ProcessSampleWithDelay mode inst input).2).buffer =
      Function.update inst.buffer inst.writeIndex input :=
  ⟨rfl, rfl, rfl, rfl, rfl, rfl⟩

/-- The output half of `ProcessSampleWithDelay` with linear interpolation,
with every intermediate spelled out. -/
theorem ProcessSampleWithDelay_linear_out (inst : DelayInstance_TypeDef) (input : ℚ) :
    (ProcessSampleWithDelay .DELAY_INTERPOLATION_LINEAR inst input).1 =
      (if inst.phaseInvert then
        -(InterpolateLinear (Function.update inst.buffer inst.writeIndex input)
          inst.bufferSize
          (ModuloBufferSize
            (truncQ (wrapReadPos ((inst.writeIndex : ℚ) - inst.delaySamples) inst.bufferSize))
            inst.bufferSize)
          (wrapReadPos ((inst.writeIndex : ℚ) - inst.delaySamples) inst.bufferSize -
            (truncQ (wrapReadPos ((inst.writeIndex : ℚ) - inst.delaySamples) inst.bufferSize) : ℚ)))
      else
        InterpolateLinear (Function.update inst.buffer inst.writeIndex input)
          inst.bufferSize
          (ModuloBufferSize
            (truncQ (wrapReadPos ((inst.writeIndex : ℚ) - inst.delaySamples) inst.bufferSize))
            inst.bufferSize)
          (wrapReadPos ((inst.writeIndex : ℚ) - inst.delaySamples) inst.bufferSize -
            (truncQ (wrapReadPos ((inst.writeIndex : ℚ) - inst.delaySamples) inst.bufferSize) : ℚ)))
        * (1 - inst.filterCoeff) + inst.prevSample * inst.filterCoeff := rfl

/-- State invariant while an impulse is pushed through an integer-`N`-sample
delay line with the smoothing coefficient zeroed: after `k` steps the write
index is `k % B` and the buffer holds the impulse in cell 0 exactly while
`1 ≤ k ≤ B`. -/
theorem delay_impulse_state (B N : ℕ) (inst : DelayInstance_TypeDef)
    (hB : 0 < B)
    (hbuf : inst.buffer = fun _ => 0) (hsize : inst.bufferSize = B)
    (hw : inst.writeIndex = 0) (hd : inst.delaySamples = (N : ℚ))
    (hpi : inst.phaseInvert = false) (hfc : inst.filterCoeff = 0) :
    ∀ k : ℕ,
      (delayStateAt .DELAY_INTERPOLATION_LINEAR inst impulseStream k).bufferSize = B ∧
      (delayStateAt .DELAY_INTERPOLATION_LINEAR inst impulseStream k).delaySamples = (N : ℚ) ∧
      (delayStateAt .DELAY_INTERPOLATION_LINEAR inst impulseStream k).phaseInvert = false ∧
      (delayStateAt .DELAY_INTERPOLATION_LINEAR inst impulseStream k).filterCoeff = 0 ∧
      (delayStateAt .DELAY_INTERPOLATION_LINEAR inst impulseStream k).writeIndex = k % B ∧
      (delayStateAt .DELAY_INTERPOLATION_LINEAR inst impulseStream k).buffer =
        fun j => if 1 ≤ k ∧ k ≤ B ∧ j = 0 then (1 : ℚ) else 0 := by
  intro k
  induction k with
  | zero =>
    refine ⟨hsize, hd, hpi, hfc, ?_, ?_⟩
    · show inst.writeIndex = 0 % B
      rw [hw, Nat.zero_mod]
    · show inst.buffer = _
      rw [hbuf]
      funext j
      simp
  | succ k ih =>
    obtain ⟨ih1, ih2, ih3, ih4, ih5, ih6⟩ := ih
    obtain ⟨p1, p2, p3, p4, p5, p6⟩ := ProcessSampleWithDelay_state
      .DELAY_INTERPOLATION_LINEAR
      (delayStateAt .DELAY_INTERPOLATION_LINEAR inst impulseStream k) (impulseStream k)
    have hstep : delayStateAt .DELAY_INTERPOLATION_LINEAR inst impulseStream (k + 1) =
        (ProcessSampleWithDelay .DELAY_INTERPOLATION_LINEAR
          (delayStateAt .DELAY_INTERPOLATION_LINEAR inst impulseStream k)
          (impulseStream k)).2 := rfl
    rw [hstep]
    refine ⟨p1.trans ih1, p2.trans ih2, p3.trans ih3, p4.trans ih4, ?_, ?_⟩
    · rw [p5, ih5, ih1,
        show (((k % B : ℕ) : ℤ) + 1) = (((k % B + 1 : ℕ)) : ℤ) from by push_cast; ring,
        ModuloBufferSize_natCast]
      exact Nat.mod_add_mod k B 1
    · rw [p6, ih6, ih5]
      funext j
      rw [Function.update_apply]
      have hr : k % B < B := Nat.mod_lt k hB
      rcases lt_or_le k B with hkB | hkB
      · have hkr : k % B = k := Nat.mod_eq_of_lt hkB
        rw [hkr]
        simp only [impulseStream]
        split_ifs <;> first | rfl | omega
      · rcases eq_or_lt_of_le hkB with hkB2 | hkB2
        · rw [← hkB2, Nat.mod_self]
          simp only [impulseStream]
          split_ifs <;> first | rfl | omega
        · have hknz : ¬(k = 0) := by omega
          simp only [impulseStream, if_neg hknz]
          split_ifs <;> first | rfl | omega

/-- With every band of a channel disabled, the PEQ band loop passes the sample
through and touches no state. -/
theorem PEQ_applyBands_all_disabled (channel : ℕ) (bs : List ℕ) (st : PEQState) (x : ℚ)
    (h : ∀ b, (st.bands channel b).enabled = false) :
    PEQ_applyBands channel bs st x = (x, st) := by
  induction bs with
  | nil => rfl
  | cons b rest ih => simp [PEQ_applyBands, h b, ih]

/-- With every band of a channel disabled, the PEQ sample loop is the
identity. -/
theorem PEQ_processSamples_all_disabled (channel : ℕ) (st : PEQState) (data : List ℚ)
    (h : ∀ b, (st.bands channel b).enabled = false) :
    PEQ_processSamples channel st data = (data, st) := by
  induction data with
  | nil => rfl
  | cons x xs ih =>
    simp [PEQ_processSamples, PEQ_applyBands_all_disabled channel _ st x h, ih]

/-! ## Claim theorems -/

/-- C1: every sample the limiter produces is hard-clamped into `[-1, 1]`
regardless of configuration, state (hence of the computed gain) and input, and
the final output-preparation stage clamps every sample of every output channel
into `[-1, 1]` after applying output gain and mute. -/
theorem C1_output_samples_clamped :
    (∀ (config : Limiter_TypeDef) (state : LimiterState_Internal) (x : ℚ),
      -1 ≤ (Limiter_ProcessSample config state x).1 ∧
        (Limiter_ProcessSample config state x).1 ≤ 1) ∧
    (∀ (status : AudioDriverStatus_TypeDef) (ch : ℕ) (x : ℚ),
      -1 ≤ Audio_PrepareOutputSample status ch x ∧
        Audio_PrepareOutputSample status ch x ≤ 1) := by
  constructor
  · intro config state x
    exact ⟨doubleClip_ge _, doubleClip_le _⟩
  · intro status ch x
    exact ⟨le_CLAMP _ _ _ (by norm_num), CLAMP_le_hi _ _ _⟩

/-- C2: one call of the biquad per-sample process computes exactly the
Direct-Form-II recurrence `w = input - a1*y1 - a2*y2;
output = b0*w + b1*y1 + b2*y2`, updates the history as `y2 = y1; y1 = w`, and
changes no other state (coefficients and `x1`/`x2` are carried over). -/
theorem C2_biquad_direct_form_ii (state : BiquadState_t) (input : ℚ) :
    Biquad_ProcessSample state input =
      (state.b0 * (input - state.a1 * state.y1 - state.a2 * state.y2)
          + state.b1 * state.y1 + state.b2 * state.y2,
        { state with
            y1 := input - state.a1 * state.y1 - state.a2 * state.y2,
            y2 := state.y1 }) := rfl

/-- C4 counterexample: `FilterDesign_Create` hands 5 Hz to the coefficient
computation unchanged, while the claimed clamp into
`[20, min(20000, sampleRate/2 − 1)]` would use 20 Hz. -/
theorem C4_low_frequency_not_clamped_cex :
    FilterDesign_Create_effectiveFreq 5 48000 = some 5 ∧
      specFrequencyClamp 5 48000 = 20 ∧ (5 : ℚ) ≠ 20 := by
  refine ⟨?_, ?_, by norm_num⟩
  · norm_num [FilterDesign_Create_effectiveFreq]
  · norm_num [specFrequencyClamp, CLAMP, min_def, max_def]

/-- C4 (amended): `FilterDesign_Create` rejects a nonpositive frequency or
sample rate as a parameter error instead of clamping; a frequency at or above
Nyquist is limited to `sampleFreq/2 − 1`; every other frequency — including
those below 20 Hz or above 20000 Hz — is used unchanged; the spec's clamp is
only matched on frequencies already inside `[20, min(20000, sampleFreq/2−1)]`. -/
theorem C4_effective_frequency (freq sampleFreq : ℚ) :
    (0 < freq → 0 < sampleFreq → freq < sampleFreq / 2 →
      FilterDesign_Create_effectiveFreq freq sampleFreq = some freq) ∧
    (0 < freq → 0 < sampleFreq → sampleFreq / 2 ≤ freq →
      FilterDesign_Create_effectiveFreq freq sampleFreq = some (sampleFreq / 2 - 1)) ∧
    (freq ≤ 0 ∨ sampleFreq ≤ 0 →
      FilterDesign_Create_effectiveFreq freq sampleFreq = none) ∧
    (20 ≤ freq → freq ≤ 20000 → freq ≤ sampleFreq / 2 - 1 →
      FilterDesign_Create_effectiveFreq freq sampleFreq =
        some (specFrequencyClamp freq sampleFreq)) := by
  refine ⟨fun hf hs hlt => ?_, fun hf hs hge => ?_, fun h => ?_, fun h20 h2k hny => ?_⟩
  · unfold FilterDesign_Create_effectiveFreq
    rw [if_neg (by push_neg; exact ⟨hf, hs⟩), if_neg (by simpa using hlt)]
  · unfold FilterDesign_Create_effectiveFreq
    rw [if_neg (by push_neg; exact ⟨hf, hs⟩), if_pos hge]
  · unfold FilterDesign_Create_effectiveFreq
    rw [if_pos h]
  · have hf : 0 < freq := by linarith
    have hs : 0 < sampleFreq := by nlinarith
    have hlt : freq < sampleFreq / 2 := by linarith
    have hclamp : specFrequencyClamp freq sampleFreq = freq := by
      unfold specFrequencyClamp CLAMP
      rw [max_eq_left h20, min_eq_left (le_min h2k hny)]
    rw [hclamp]
    unfold FilterDesign_Create_effectiveFreq
    rw [if_neg (by push_neg; exact ⟨hf, hs⟩), if_neg (by simpa using hlt)]

/-- C4 witness: a 1 kHz design at 48 kHz goes through unchanged, matching the
spec clamp; a 5 Hz design also goes through unchanged. -/
theorem C4_effective_frequency_witness :
    FilterDesign_Create_effectiveFreq 1000 48000 = some 1000 ∧
      FilterDesign_Create_effectiveFreq 5 48000 = some 5 := by
  have h1 := (C4_effective_frequency 1000 48000).1 (by norm_num) (by norm_num) (by norm_num)
  have h2 := (C4_effective_frequency 5 48000).1 (by norm_num) (by norm_num) (by norm_num)
  exact ⟨h1, h2⟩

/-- C5 counterexample: a zero-length frame handed to `Delay_Process` is
reported as `HAL_ERROR` (with the state unchanged), not as success. -/
theorem C5_delay_zero_length_rejected_cex :
    Delay_Process .DELAY_INTERPOLATION_LINEAR 0 (some ([] : List ℚ)) delayInstEx =
      (.HAL_ERROR, some [], delayInstEx) ∧
      HAL_StatusTypeDef.HAL_ERROR ≠ HAL_StatusTypeDef.HAL_OK := by
  exact ⟨rfl, by decide⟩

/-- C5 (amended): a zero-length or null call processes no samples and leaves
the module state unchanged, but the status reporting differs per module:
`Limiter_ProcessBlock` returns success for a zero-length block and an error for
a null buffer, while `Delay_Process` returns an error for both a null buffer
and a zero-length block. -/
theorem C5_zero_length_no_op_status_split :
    (∀ (config : Limiter_TypeDef) (channel : ℕ) (state : LimiterState_Internal),
      channel < AUDIO_OUTPUT_CHANNELS →
      Limiter_ProcessBlock config true channel (some []) state =
        (.LIMITER_OK, some [], state)) ∧
    (∀ (config : Limiter_TypeDef) (initialized : Bool) (channel : ℕ)
        (state : LimiterState_Internal),
      Limiter_ProcessBlock config initialized channel none state =
        (.LIMITER_ERROR, none, state)) ∧
    (∀ (mode : DelayInterpolation_TypeDef) (channel : ℕ) (inst : DelayInstance_TypeDef),
      Delay_Process mode channel none inst = (.HAL_ERROR, none, inst)) ∧
    (∀ (mode : DelayInterpolation_TypeDef) (channel : ℕ) (inst : DelayInstance_TypeDef),
      Delay_Process mode channel (some []) inst = (.HAL_ERROR, some [], inst)) := by
  refine ⟨fun config channel state hch => ?_, fun _ _ _ _ => rfl,
    fun _ _ _ => rfl, fun mode channel inst => ?_⟩
  · have h4 : ¬(AUDIO_OUTPUT_CHANNELS ≤ channel) := Nat.not_le.mpr hch
    simp [Limiter_ProcessBlock, Limiter_processList, h4]
  · simp [Delay_Process]

/-- C5 witness: the limiter accepts a zero-length block on channel 0 as a
successful no-op. -/
theorem C5_zero_length_no_op_status_split_witness :
    Limiter_ProcessBlock limiterCfgEx true 0 (some []) limiterStateEx =
      (.LIMITER_OK, some [], limiterStateEx) :=
  C5_zero_length_no_op_status_split.1 limiterCfgEx 0 limiterStateEx (by decide)

/-- C9: a muted output channel yields all-zero samples at the routing stage,
and the output-preparation stage forces every sample of a muted channel to
exactly `0.0` (and DMA word 0) regardless of the buffer contents produced by
any upstream processing. -/
theorem C9_mute_forces_zero_output :
    (∀ (cfg : AudioRouting_cfg) (outputChannel : ℕ) (inputSamples : ℕ → ℕ → ℚ)
        (bufferSize : ℕ),
      cfg.outputMute outputChannel = true →
      ∀ x ∈ ProcessChannelRouting cfg outputChannel inputSamples bufferSize, x = 0) ∧
    (∀ (status : AudioDriverStatus_TypeDef) (buffer : ℕ → ℕ → ℚ) (ch i : ℕ),
      status.outputMute ch = true →
      Audio_PrepareOutputSample status ch (buffer ch i) = 0 ∧
      Audio_PrepareOutputSamples status buffer ch i = 0) := by
  constructor
  · intro cfg oc inp n hm x hx
    unfold ProcessChannelRouting at hx
    rw [if_pos hm] at hx
    exact List.eq_of_mem_replicate hx
  · intro status buffer ch i hm
    have h1 : Audio_PrepareOutputSample status ch (buffer ch i) = 0 := by
      simp only [Audio_PrepareOutputSample]
      rw [if_pos hm]
      norm_num [CLAMP, min_def, max_def]
    refine ⟨h1, ?_⟩
    unfold Audio_PrepareOutputSamples
    rw [h1]
    norm_num [FLOAT_TO_INT24, truncQ]

/-- C9 witness: with channel 0 muted, routing an all-ones frame yields zeros
and output preparation maps the sample 5/2 to exactly 0. -/
theorem C9_mute_forces_zero_output_witness :
    (∀ x ∈ ProcessChannelRouting routingCfgEx 0 (fun _ _ => 1) 8, x = 0) ∧
      Audio_PrepareOutputSample driverStatusEx 0 (5 / 2) = 0 := by
  refine ⟨C9_mute_forces_zero_output.1 routingCfgEx 0 (fun _ _ => 1) 8 (by decide), ?_⟩
  exact (C9_mute_forces_zero_output.2 driverStatusEx (fun _ _ => 5 / 2) 0 3 (by decide)).1

/-- C3 counterexample: the limiter's block processor has no disabled/bypass
path; with a −6 dB threshold it maps the in-range sequence `[1, 1]` to
`[1, 1/2]`, so it is not the identity on its input. -/
theorem C3_limiter_no_bypass_cex :
    (Limiter_ProcessBlock limiterCfgEx true 0 (some [1, 1]) limiterStateEx).2.1 =
      some [1, 1/2] ∧ ((1 : ℚ) / 2) ≠ 1 := by
  constructor
  · norm_num [Limiter_ProcessBlock, Limiter_processList, Limiter_ProcessSample,
      Limiter_ApplyInterSampleProtection, Limiter_ProcessLookahead,
      Limiter_CalculateGainReduction, Limiter_UpdateReleaseEnvelope,
      limiterCfgEx, limiterStateEx, ENVELOPE_SMOOTHING, MIN_GAIN_LIN,
      DEFAULT_HOLD_SAMPLES, AUDIO_OUTPUT_CHANNELS, max_def, abs]
  · norm_num

/-- C3 (amended): the crossover in full-range mode, a parametric-EQ channel
with every band disabled, a disabled compressor and a disabled delay all
return any input sequence unchanged, sample for sample, without touching
state; the limiter's block processor, however, has no disabled/bypass check
and processes unconditionally, so a "disabled" limiter is not the identity for
all inputs. -/
theorem C3_disabled_modules_identity :
    (∀ (outputChannel : ℕ) (ch : CrossoverChannel) (x : ℚ),
      ch.config.filterMode = .CROSSOVER_MODE_FULLRANGE →
      Crossover_ProcessSample outputChannel ch x = (x, ch)) ∧
    (∀ (channel : ℕ) (st : PEQState) (data : List ℚ),
      (∀ b, (st.bands channel b).enabled = false) →
      PEQ_ProcessChannel channel st (some data) = (some data, st)) ∧
    (∀ (ops : MathOps) (channel : ℕ) (state : CompressorState_TypeDef) (data : List ℚ),
      state.params.enabled = false →
      Compressor_Process ops channel (some data) state = (some data, state)) ∧
    (∀ (mode : DelayInterpolation_TypeDef) (channel : ℕ) (inst : DelayInstance_TypeDef)
        (data : List ℚ),
      inst.enabled = false → channel < MAX_DELAY_CHANNELS → data ≠ [] →
      Delay_Process mode channel (some data) inst = (.HAL_OK, some data, inst)) := by
  refine ⟨fun oc ch x hmode => ?_, fun channel st data h => ?_,
    fun ops channel state data h => ?_, fun mode channel inst data hen hch hdata => ?_⟩
  · by_cases hc : AUDIO_OUTPUT_CHANNELS ≤ oc
    · simp [Crossover_ProcessSample, hc]
    · simp [Crossover_ProcessSample, hc, hmode]
  · by_cases hc : AUDIO_OUTPUT_CHANNELS ≤ channel
    · simp [PEQ_ProcessChannel, hc]
    · simp [PEQ_ProcessChannel, hc, PEQ_processSamples_all_disabled channel st data h]
  · simp [Compressor_Process, h]
  · simp [Delay_Process, Nat.not_le.mpr hch, hen,
      List.length_eq_zero, hdata]

/-- C3 witness: the four bypassable stages act as the identity on concrete
disabled instances and inputs. -/
theorem C3_disabled_modules_identity_witness :
    Crossover_ProcessSample 0 crossChannelEx (3 / 2) = (3 / 2, crossChannelEx) ∧
    PEQ_ProcessChannel 0 peqStEx (some [1, 2]) = (some [1, 2], peqStEx) ∧
    Compressor_Process opsEx 0 (some [1, 2]) compStateEx = (some [1, 2], compStateEx) ∧
    Delay_Process .DELAY_INTERPOLATION_LINEAR 0 (some [1, 2]) delayDisabledEx =
      (.HAL_OK, some [1, 2], delayDisabledEx) := by
  obtain ⟨h1, h2, h3, h4⟩ := C3_disabled_modules_identity
  exact ⟨h1 0 crossChannelEx (3 / 2) rfl,
    h2 0 peqStEx [1, 2] (fun b => rfl),
    h3 opsEx 0 compStateEx [1, 2] rfl,
    h4 .DELAY_INTERPOLATION_LINEAR 0 delayDisabledEx [1, 2] rfl (by decide) (by simp)⟩

/-- C6 counterexample: `Delay_SetTime` rejects an out-of-range delay time with
`HAL_ERROR` and leaves the stored time unchanged, instead of clamping to the
nearest bound and succeeding. -/
theorem C6_delay_settime_rejects_cex :
    Delay_SetTime true 1 0 (-1) delayInstEx = (.HAL_ERROR, delayInstEx) ∧
      HAL_StatusTypeDef.HAL_ERROR ≠ HAL_StatusTypeDef.HAL_OK := by
  exact ⟨rfl, by decide⟩

/-- C6 (amended): the value setters are split: `PEQ_ConfigureBand` clamps
frequency/gain/Q to the nearest valid bound, succeeds, and a subsequent get
returns the clamped values; `Delay_SetTime` and `Crossover_SetFrequency`
instead reject out-of-range values with an error status and leave the stored
configuration unchanged. -/
theorem C6_value_setters_clamp_or_reject :
    (∀ (ops : MathOps) (st : PEQState) (channel band : ℕ) (cfg : PEQBand_TypeDef),
      channel < AUDIO_OUTPUT_CHANNELS → band < PEQ_MAX_BANDS_PER_CHANNEL →
      (PEQ_ConfigureBand ops st channel band (some cfg)).1 = .HAL_OK ∧
      PEQ_GetBandConfig (PEQ_ConfigureBand ops st channel band (some cfg)).2 channel band =
        (.HAL_OK, some
          { type := cfg.type,
            frequency := CLAMP cfg.frequency 20 20000,
            gain := CLAMP cfg.gain (-12) 12,
            q := CLAMP cfg.q (1 / 10) 10,
            enabled := cfg.enabled })) ∧
    (∀ (initialized : Bool) (tcf : ℚ) (channel : ℕ) (delayMs : ℚ)
        (inst : DelayInstance_TypeDef),
      channel < MAX_DELAY_CHANNELS → inst.isActive = true →
      (delayMs < 0 ∨ delayMs > inst.maxDelayMs) →
      Delay_SetTime initialized tcf channel delayMs inst = (.HAL_ERROR, inst)) ∧
    (∀ (outputChannel : ℕ) (cfg : CrossoverConfig_TypeDef)
        (ft : CrossoverFrequencyType_TypeDef) (frequency : ℚ),
      outputChannel < AUDIO_OUTPUT_CHANNELS →
      (frequency < CROSSOVER_MIN_FREQ ∨ frequency > CROSSOVER_MAX_FREQ) →
      Crossover_SetFrequency outputChannel cfg ft frequency = (1, cfg)) := by
  refine ⟨fun ops st channel band cfg hch hband => ?_,
    fun initialized tcf channel delayMs inst hch hact hout => ?_,
    fun oc cfg ft frequency hch hout => ?_⟩
  · have hcond : ¬(AUDIO_OUTPUT_CHANNELS ≤ channel ∨ PEQ_MAX_BANDS_PER_CHANNEL ≤ band) := by
      push_neg
      exact ⟨hch, hband⟩
    constructor
    · simp only [PEQ_ConfigureBand]
      rw [if_neg hcond]
    · simp only [PEQ_ConfigureBand]
      rw [if_neg hcond]
      simp only [PEQ_UpdateFilterCoefficients, PEQ_GetBandConfig]
      rw [if_neg hcond]
      simp only [update2, eq_self_iff_true, and_self, if_true]
      rw [ite_clamp_eq cfg.frequency 20 20000 (by norm_num),
        ite_clamp_eq cfg.gain (-12) 12 (by norm_num),
        ite_clamp_eq cfg.q (1 / 10) 10 (by norm_num)]
  · unfold Delay_SetTime
    rw [if_neg (by push_neg; exact ⟨hch, hact⟩), if_pos hout]
  · unfold Crossover_SetFrequency
    rw [if_neg (Nat.not_le.mpr hch), if_pos hout]

/-- C6 witness: an all-out-of-range PEQ request is clamped to the bounds and
read back as such; an over-limit delay time and an under-range crossover
frequency are rejected with the configuration untouched. -/
theorem C6_value_setters_clamp_or_reject_witness :
    PEQ_GetBandConfig (PEQ_ConfigureBand opsEx peqStEx 0 0 (some peqCfgOutOfRange)).2 0 0 =
      (.HAL_OK, some
        { type := .PEQ_TYPE_BELL, frequency := 20, gain := 12, q := 10, enabled := true }) ∧
    Delay_SetTime true 1 0 30 delayInstEx = (.HAL_ERROR, delayInstEx) ∧
    Crossover_SetFrequency 0 crossChannelEx.config .CROSSOVER_FREQ_LOW 5 =
      (1, crossChannelEx.config) := by
  obtain ⟨h1, h2, h3⟩ := C6_value_setters_clamp_or_reject
  refine ⟨?_, h2 true 1 0 30 delayInstEx (by decide) rfl (by right; norm_num [delayInstEx]),
    h3 0 crossChannelEx.config .CROSSOVER_FREQ_LOW 5 (by decide) (by left; norm_num [CROSSOVER_MIN_FREQ])⟩
  have h := (h1 opsEx peqStEx 0 0 peqCfgOutOfRange (by decide) (by decide)).2
  rw [h]
  norm_num [peqCfgOutOfRange, CLAMP, min_def, max_def]

/-- C8: for a Linkwitz-Riley cascade the requested order is rounded up to the
next even number when odd (both in `FilterDesign_CreateCascade` and in
`Crossover_SetOrder`), and the resulting filter bank consists of two identical
cascaded Butterworth filter banks, each designed for half the (possibly
rounded) order. -/
theorem C8_linkwitz_riley_cascade
    (besselCreate : ℕ → FilterType_t → ℚ → ℕ → ℚ →
      Except FilterDesignStatus (List DesignCall))
    (numFilters : ℕ) (filterType : FilterType_t) (freq sampleFreq : ℚ) (order : ℕ)
    (hnum : 1 ≤ numFilters) (hfreq : 0 < freq) (hsf : 0 < sampleFreq)
    (hord : (order + 1) / 2 ≤ numFilters) :
    ((if order % 2 = 1 then order + 1 else order) % 2 = 0 ∧
      order ≤ (if order % 2 = 1 then order + 1 else order) ∧
      (if order % 2 = 1 then order + 1 else order) ≤ order + 1) ∧
    (∃ half,
      FilterDesign_CreateCascade besselCreate numFilters filterType freq
        .FILTER_RESPONSE_BUTTERWORTH ((if order % 2 = 1 then order + 1 else order) / 2)
        sampleFreq = .ok half ∧
      FilterDesign_CreateCascade besselCreate numFilters filterType freq
        .FILTER_RESPONSE_LINKWITZ_RILEY order sampleFreq = .ok (half ++ half)) ∧
    (∀ (cfg : CrossoverConfig_TypeDef) (ch : ℕ),
      ch < AUDIO_OUTPUT_CHANNELS → 1 ≤ order → order ≤ MAX_FILTER_ORDER →
      cfg.type = .CROSSOVER_TYPE_LINKWITZ_RILEY →
      Crossover_SetOrder ch cfg order =
        (0, { cfg with order := if order % 2 = 1 then order + 1 else order })) := by
  have hv : ¬(numFilters < 1 ∨ freq ≤ 0 ∨ sampleFreq ≤ 0) := by
    push_neg
    exact ⟨hnum, hfreq, hsf⟩
  refine ⟨?_, ?_, ?_⟩
  · rcases Nat.mod_two_eq_zero_or_one order with hpar | hpar <;> (simp [hpar]; all_goals omega)
  · rcases Nat.mod_two_eq_zero_or_one order with hpar | hpar
    · refine ⟨(List.range ((order / 2 + 1) / 2)).map fun i =>
          DesignCall.mk filterType freq (ComputeQForButterworthOrder (order / 2) i) 0
            sampleFreq, ?_, ?_⟩
      · rw [show (if order % 2 = 1 then order + 1 else order) = order from by simp [hpar]]
        unfold FilterDesign_CreateCascade
        rw [if_neg hv, if_neg (show ¬(numFilters < (order / 2 + 1) / 2) from by omega)]
        try rfl
      · unfold FilterDesign_CreateCascade
        rw [if_neg hv, if_neg (show ¬(numFilters < (order + 1) / 2) from by omega),
          if_pos rfl, if_neg (show ¬(order % 2 ≠ 0) from by omega)]
        try rfl
    · refine ⟨(List.range (((order + 1) / 2 + 1) / 2)).map fun i =>
          DesignCall.mk filterType freq
            (ComputeQForButterworthOrder ((order + 1) / 2) i) 0 sampleFreq, ?_, ?_⟩
      · rw [show (if order % 2 = 1 then order + 1 else order) = order + 1 from by simp [hpar]]
        unfold FilterDesign_CreateCascade
        rw [if_neg hv,
          if_neg (show ¬(numFilters < ((order + 1) / 2 + 1) / 2) from by omega)]
        try rfl
      · unfold FilterDesign_CreateCascade
        rw [if_neg hv, if_neg (show ¬(numFilters < (order + 1) / 2) from by omega),
          if_pos rfl, if_pos (show order % 2 ≠ 0 from by omega)]
        try rfl
  · intro cfg ch hch h1 h12 htype
    unfold Crossover_SetOrder
    rw [if_neg (Nat.not_le.mpr hch),
      if_neg (show ¬(order < 1 ∨ order > MAX_FILTER_ORDER) from by push_neg; exact ⟨h1, h12⟩)]
    rcases Nat.mod_two_eq_zero_or_one order with hpar | hpar
    · rw [if_neg (show ¬(cfg.type = .CROSSOVER_TYPE_LINKWITZ_RILEY ∧ order % 2 ≠ 0) from by
        simp [hpar])]
      simp [hpar]
    · rw [if_pos ⟨htype, by omega⟩]
      have h2 : 2 * ((order + 1) / 2) = order + 1 := by omega
      simp [hpar, h2]

/-- C8 witness: a requested Linkwitz-Riley order of 3 is rounded up to 4 and
built as two identical 2nd-order Butterworth banks. -/
theorem C8_linkwitz_riley_cascade_witness :
    ∃ half,
      FilterDesign_CreateCascade besselCreateEx 2 .FILTER_TYPE_LOWPASS 1000
        .FILTER_RESPONSE_BUTTERWORTH 2 48000 = .ok half ∧
      FilterDesign_CreateCascade besselCreateEx 2 .FILTER_TYPE_LOWPASS 1000
        .FILTER_RESPONSE_LINKWITZ_RILEY 3 48000 = .ok (half ++ half) := by
  have h := (C8_linkwitz_riley_cascade besselCreateEx 2 .FILTER_TYPE_LOWPASS 1000 48000 3
    (by norm_num) (by norm_num) (by norm_num) (by norm_num)).2.1
  simpa using h

/-- C10: reconfiguring one parametric-EQ band (valid channel and band index)
succeeds, recomputes the coefficients and resets the delay-line state of that
band only: the configuration and biquad state of every other (channel, band)
cell are unchanged, and the reconfigured band's history is cleared to zero.
`Biquad_SetCoefficients` is modelled from the spec (its implementation is not
under `src/`). -/
theorem C10_peq_configure_band_frame_effect
    (ops : MathOps) (st : PEQState) (channel band : ℕ) (cfg : PEQBand_TypeDef)
    (hch : channel < AUDIO_OUTPUT_CHANNELS) (hband : band < PEQ_MAX_BANDS_PER_CHANNEL) :
    (PEQ_ConfigureBand ops st channel band (some cfg)).1 = .HAL_OK ∧
    (∀ c b, ¬(c = channel ∧ b = band) →
      (PEQ_ConfigureBand ops st channel band (some cfg)).2.bands c b = st.bands c b ∧
      (PEQ_ConfigureBand ops st channel band (some cfg)).2.states c b = st.states c b) ∧
    ((PEQ_ConfigureBand ops st channel band (some cfg)).2.states channel band).x1 = 0 ∧
    ((PEQ_ConfigureBand ops st channel band (some cfg)).2.states channel band).x2 = 0 ∧
    ((PEQ_ConfigureBand ops st channel band (some cfg)).2.states channel band).y1 = 0 ∧
    ((PEQ_ConfigureBand ops st channel band (some cfg)).2.states channel band).y2 = 0 := by
  have hcond : ¬(AUDIO_OUTPUT_CHANNELS ≤ channel ∨ PEQ_MAX_BANDS_PER_CHANNEL ≤ band) := by
    push_neg
    exact ⟨hch, hband⟩
  refine ⟨?_, fun c b hcb => ⟨?_, ?_⟩, ?_, ?_, ?_, ?_⟩
  · simp only [PEQ_ConfigureBand]
    rw [if_neg hcond]
  · simp only [PEQ_ConfigureBand]
    rw [if_neg hcond]
    simp [PEQ_UpdateFilterCoefficients, update2, hcb]
  · simp only [PEQ_ConfigureBand]
    rw [if_neg hcond]
    simp [PEQ_UpdateFilterCoefficients, update2, hcb]
  · simp only [PEQ_ConfigureBand]
    rw [if_neg hcond]
    simp [PEQ_UpdateFilterCoefficients, update2, Biquad_SetCoefficients]
  · simp only [PEQ_ConfigureBand]
    rw [if_neg hcond]
    simp [PEQ_UpdateFilterCoefficients, update2, Biquad_SetCoefficients]
  · simp only [PEQ_ConfigureBand]
    rw [if_neg hcond]
    simp [PEQ_UpdateFilterCoefficients, update2, Biquad_SetCoefficients]
  · simp only [PEQ_ConfigureBand]
    rw [if_neg hcond]
    simp [PEQ_UpdateFilterCoefficients, update2, Biquad_SetCoefficients]

/-- C10 witness: reconfiguring channel 0, band 1 succeeds, leaves channel 2,
band 3 untouched, and clears the reconfigured band's history. -/
theorem C10_peq_configure_band_frame_effect_witness :
    (PEQ_ConfigureBand opsEx peqStEx 0 1 (some peqCfgOutOfRange)).1 = .HAL_OK ∧
    (PEQ_ConfigureBand opsEx peqStEx 0 1 (some peqCfgOutOfRange)).2.bands 2 3 =
      peqStEx.bands 2 3 ∧
    ((PEQ_ConfigureBand opsEx peqStEx 0 1 (some peqCfgOutOfRange)).2.states 0 1).y1 = 0 := by
  have h := C10_peq_configure_band_frame_effect opsEx peqStEx 0 1 peqCfgOutOfRange
    (by decide) (by decide)
  exact ⟨h.1, (h.2.1 2 3 (by simp)).1, h.2.2.2.2.1⟩

/-- C7 counterexample: with the delay line exactly as `Delay_Init` leaves it
(`filterCoeff = 0.7`), a 1-sample integer delay fed the impulse stream gives
`0.3` — not `1` — at output index 1: the always-applied one-pole smoothing
filter breaks impulse exactness. -/
theorem C7_delay_impulse_smoothed_cex :
    delayOutputAt .DELAY_INTERPOLATION_LINEAR delayInstEx impulseStream 1 = 3 / 10 ∧
      (3 / 10 : ℚ) ≠ 1 := by
  refine ⟨?_, by norm_num⟩
  have hceil : ⌈-(-1 : ℚ) / ((4 : ℕ) : ℚ)⌉ = 1 := by
    rw [show (-(-1 : ℚ) / ((4 : ℕ) : ℚ)) = 1 / 4 from by push_cast; ring,
      Int.ceil_eq_iff]
    norm_num
  have hw0 : wrapReadPos (-1 : ℚ) 4 = 3 := by
    unfold wrapReadPos
    rw [if_pos (by norm_num), hceil]
    push_cast
    norm_num
  have hout0 : (ProcessSampleWithDelay .DELAY_INTERPOLATION_LINEAR delayInstEx
      (impulseStream 0)).1 = 0 := by
    rw [ProcessSampleWithDelay_linear_out]
    norm_num [delayInstEx, impulseStream, hw0,
      show truncQ (3 : ℚ) = 3 from by decide,
      show ModuloBufferSize (3 : ℤ) 4 = 3 from by decide,
      show ModuloBufferSize (4 : ℤ) 4 = 0 from by decide,
      InterpolateLinear, Function.update_apply]
  show (ProcessSampleWithDelay .DELAY_INTERPOLATION_LINEAR
    (ProcessSampleWithDelay .DELAY_INTERPOLATION_LINEAR delayInstEx (impulseStream 0)).2
    (impulseStream 1)).1 = 3 / 10
  obtain ⟨q1, q2, q3, q4, q5, q6⟩ := ProcessSampleWithDelay_state
    .DELAY_INTERPOLATION_LINEAR delayInstEx (impulseStream 0)
  have hprev : (ProcessSampleWithDelay .DELAY_INTERPOLATION_LINEAR delayInstEx
      (impulseStream 0)).2.prevSample = 0 := hout0
  rw [ProcessSampleWithDelay_linear_out, q1, q2, q3, q4, q5, q6, hprev]
  norm_num [delayInstEx, impulseStream,
    show ModuloBufferSize ((0 : ℤ) + 1) 4 = 1 from by decide,
    show ModuloBufferSize (1 : ℤ) 4 = 1 from by decide,
    show wrapReadPos (0 : ℚ) 4 = 0 from wrapReadPos_of_nonneg 0 4 le_rfl,
    show truncQ (0 : ℚ) = 0 from by decide,
    show ModuloBufferSize (0 : ℤ) 4 = 0 from by decide,
    InterpolateLinear, Function.update_apply]

/-- C7 (amended): impulse exactness DOES hold once the smoothing coefficient
is zero.  For a flushed delay line of buffer size `B`, integer delay
`N < B` samples and `filterCoeff = 0`, the impulse stream produces exactly
the impulse delayed by `N`: output `1` at index `N` and `0` elsewhere. -/
theorem C7_delay_impulse_exact_when_unsmoothed
    (B N : ℕ) (inst : DelayInstance_TypeDef) (hB : 0 < B) (hNB : N < B)
    (hbuf : inst.buffer = fun _ => 0) (hsize : inst.bufferSize = B)
    (hw : inst.writeIndex = 0) (hd : inst.delaySamples = (N : ℚ))
    (hpi : inst.phaseInvert = false) (hfc : inst.filterCoeff = 0) (k : ℕ) :
    delayOutputAt .DELAY_INTERPOLATION_LINEAR inst impulseStream k =
      if k = N then 1 else 0 := by
  obtain ⟨h1, h2, h3, h4, h5, h6⟩ :=
    delay_impulse_state B N inst hB hbuf hsize hw hd hpi hfc k
  have hbuf2 :=
    (delay_impulse_state B N inst hB hbuf hsize hw hd hpi hfc (k + 1)).2.2.2.2.2
  have hstep : delayStateAt .DELAY_INTERPOLATION_LINEAR inst impulseStream (k + 1) =
      (ProcessSampleWithDelay .DELAY_INTERPOLATION_LINEAR
        (delayStateAt .DELAY_INTERPOLATION_LINEAR inst impulseStream k)
        (impulseStream k)).2 := rfl
  rw [hstep, (ProcessSampleWithDelay_state .DELAY_INTERPOLATION_LINEAR
    (delayStateAt .DELAY_INTERPOLATION_LINEAR inst impulseStream k)
    (impulseStream k)).2.2.2.2.2] at hbuf2
  unfold delayOutputAt
  rw [ProcessSampleWithDelay_linear_out, h1, h2, h3, h4, hbuf2, h5,
    if_neg Bool.false_ne_true]
  set r := k % B with hrdef
  have hr : r < B := Nat.mod_lt k hB
  rcases le_or_lt N r with hcase | hcase
  · have hc1 : ((r : ℚ)) - (N : ℚ) = ((r - N : ℕ) : ℚ) := by push_cast [hcase]; ring
    rw [hc1, wrapReadPos_of_nonneg _ _ (by positivity), truncQ_natCast,
      ModuloBufferSize_natCast, Nat.mod_eq_of_lt (show r - N < B from by omega),
      show (((r - N : ℕ) : ℤ) : ℚ) = ((r - N : ℕ) : ℚ) from by push_cast; ring,
      sub_self]
    simp only [InterpolateLinear, zero_mul, add_zero, mul_zero, sub_zero, mul_one]
    rcases lt_or_le k B with hkB | hkB
    · have hkr : r = k := by rw [hrdef]; exact Nat.mod_eq_of_lt hkB
      split_ifs <;> first | rfl | omega
    · split_ifs <;> first | rfl | omega
  · have hc2 : ((r : ℚ)) - N < 0 := by
      have hlt : (r : ℚ) < N := by exact_mod_cast hcase
      linarith
    have hceil : ⌈(-(((r : ℚ)) - N)) / (B : ℚ)⌉ = 1 := by
      have he : (-(((r : ℚ)) - N)) = ((N - r : ℕ) : ℚ) := by
        push_cast [le_of_lt hcase]; ring
      rw [he, Int.ceil_eq_iff]
      push_cast
      constructor
      · have hpos : (0 : ℚ) < ((N - r : ℕ) : ℚ) / B := by
          apply div_pos
          · exact_mod_cast Nat.sub_pos_of_lt hcase
          · exact_mod_cast hB
        linarith
      · apply div_le_one_of_le₀
        · exact_mod_cast (show N - r ≤ B from by omega)
        · positivity
    have hwrap : wrapReadPos (((r : ℚ)) - N) B = ((r + B - N : ℕ) : ℚ) := by
      unfold wrapReadPos
      rw [if_pos hc2, hceil]
      push_cast [show N ≤ r + B from by omega]
      ring
    rw [hwrap, truncQ_natCast, ModuloBufferSize_natCast,
      Nat.mod_eq_of_lt (show r + B - N < B from by omega),
      show (((r + B - N : ℕ) : ℤ) : ℚ) = ((r + B - N : ℕ) : ℚ) from by push_cast; ring,
      sub_self]
    simp only [InterpolateLinear, zero_mul, add_zero, mul_zero, sub_zero, mul_one]
    rcases lt_or_le k B with hkB | hkB
    · have hkr : r = k := by rw [hrdef]; exact Nat.mod_eq_of_lt hkB
      split_ifs <;> first | rfl | omega
    · split_ifs <;> first | rfl | omega

/-- C7 witness: a flushed 4-slot delay line with smoothing off and a 2-sample
delay maps the impulse stream to `1` at index 2 and `0` at index 0. -/
theorem C7_delay_impulse_exact_when_unsmoothed_witness :
    delayOutputAt .DELAY_INTERPOLATION_LINEAR delayInstNoSmooth impulseStream 2 = 1 ∧
    delayOutputAt .DELAY_INTERPOLATION_LINEAR delayInstNoSmooth impulseStream 0 = 0 := by
  have h := C7_delay_impulse_exact_when_unsmoothed 4 2 delayInstNoSmooth
    (by norm_num) (by norm_num) rfl rfl rfl (by norm_num [delayInstNoSmooth, delayInstEx])
    rfl rfl
  exact ⟨by simpa using h 2, by simpa using h 0⟩

end DMLS
